import Mathlib

/-!
Verification development for the resource / view / descriptor core of
src/libs/vkd3d/resource.c.  The definitions below are a shallow embedding of
that file: machine integers become Nat (with explicit masking where overflow
matters), Vulkan handles become plain Nat identifiers, float fields are kept
as their 32-bit bit patterns (the source hashes them through
float_bits_to_uint32 and compares them fieldwise), and the external Vulkan
driver calls are modelled by explicit parameters (memory requirements,
creation success flags) together with counters of the native update calls the
code would issue.
-/

/-! ## Constants from the D3D12 headers (public API, not part of resource.c) -/

def D3D12_DEFAULT_RESOURCE_PLACEMENT_ALIGNMENT : Nat := 65536

def D3D12_CONSTANT_BUFFER_DATA_PLACEMENT_ALIGNMENT : Nat := 256

/-- D3D12_TEXTURE_ADDRESS_MODE_BORDER from the D3D12 headers. -/
def D3D12_TEXTURE_ADDRESS_MODE_BORDER : Nat := 4

/-- Modelled from the spec: the align() helper of the common headers (not under
src/) rounds a value up to the next multiple of the (power-of-two) alignment;
for a power-of-two alignment the bitmask form of the C macro agrees with this
arithmetic form. -/
def align (value alignment : Nat) : Nat :=
  ((value + alignment - 1) / alignment) * alignment

/-! ## Cookie allocator (resource.c lines 32-37)

static LONG64 global_cookie_counter starts at zero;
vkd3d_allocate_cookie() returns InterlockedIncrement64 of it, i.e. the new
value of the counter.  State is the current counter value. -/

def vkd3d_allocate_cookie (counter : Nat) : Nat × Nat :=
  (counter + 1, counter + 1)

/-- The cookie returned by the n-th allocation when starting from counter
state 0 (allocations numbered from 0). -/
def cookie_at (n : Nat) : Nat := n + 1

/-! ## View keys (resource.c lines 654-775)

struct vkd3d_view_key is a tagged union over buffer, texture and sampler
descriptions.  Float-typed fields (LOD parameters, border colors, mip clamp)
are stored as their 32-bit patterns; the source feeds them to the hash through
float_bits_to_uint32 and compares them directly. -/

structure D3D12_SAMPLER_DESC where
  Filter : Nat
  AddressU : Nat
  AddressV : Nat
  AddressW : Nat
  MipLODBias : Nat
  MaxAnisotropy : Nat
  ComparisonFunc : Nat
  BorderColor0 : Nat
  BorderColor1 : Nat
  BorderColor2 : Nat
  BorderColor3 : Nat
  MinLOD : Nat
  MaxLOD : Nat
deriving DecidableEq, Repr

structure vkd3d_buffer_view_key where
  buffer : Nat
  format : Nat
  offset : Nat
  size : Nat
deriving DecidableEq, Repr

structure vkd3d_texture_view_key where
  image : Nat
  view_type : Nat
  format : Nat
  miplevel_idx : Nat
  miplevel_count : Nat
  miplevel_clamp : Nat
  layer_idx : Nat
  layer_count : Nat
  components_r : Nat
  components_g : Nat
  components_b : Nat
  components_a : Nat
  allowed_swizzle : Bool
deriving DecidableEq, Repr

inductive vkd3d_view_key where
  | buffer (b : vkd3d_buffer_view_key)
  | image (t : vkd3d_texture_view_key)
  | sampler (s : D3D12_SAMPLER_DESC)
  | accelerationStructure (b : vkd3d_buffer_view_key)
deriving DecidableEq, Repr

/-- resource.c lines 4497-4503: a sampler needs a border color exactly when
one of the three address modes is the border mode. -/
def d3d12_sampler_needs_border_color (u v w : Nat) : Bool :=
  u = D3D12_TEXTURE_ADDRESS_MODE_BORDER ||
    v = D3D12_TEXTURE_ADDRESS_MODE_BORDER ||
    w = D3D12_TEXTURE_ADDRESS_MODE_BORDER

/-- Modelled from the spec: hash_combine from the common hashmap header (not
under src/); a boost-style 32-bit mixing step.  The claims depend only on
which fields are fed to it, not on the mixing itself. -/
def hash_combine (a b : Nat) : Nat :=
  (a ^^^ (b + 2654435769 + (a <<< 6) + (a >>> 2))) % 4294967296

/-- Modelled from the spec: hash_uint64 from the common hashmap header (not
under src/); folds a 64-bit value into 32 bits. -/
def hash_uint64 (v : Nat) : Nat :=
  ((v >>> 32) ^^^ v) % 4294967296

/-- resource.c lines 664-720: vkd3d_view_entry_hash.  The sampler arm feeds
the four border-color words to the hash only when
d3d12_sampler_needs_border_color holds for the key's address modes. -/
def vkd3d_view_entry_hash : vkd3d_view_key → Nat
  | vkd3d_view_key.buffer b =>
      hash_combine (hash_combine (hash_combine (hash_uint64 b.buffer)
        (hash_uint64 b.offset)) (hash_uint64 b.size)) b.format
  | vkd3d_view_key.accelerationStructure b =>
      hash_combine (hash_combine (hash_combine (hash_uint64 b.buffer)
        (hash_uint64 b.offset)) (hash_uint64 b.size)) b.format
  | vkd3d_view_key.image t =>
      let h := hash_uint64 t.image
      let h := hash_combine h t.view_type
      let h := hash_combine h t.format
      let h := hash_combine h t.miplevel_idx
      let h := hash_combine h t.miplevel_count
      let h := hash_combine h t.miplevel_clamp
      let h := hash_combine h t.layer_idx
      let h := hash_combine h t.layer_count
      let h := hash_combine h t.components_r
      let h := hash_combine h t.components_g
      let h := hash_combine h t.components_b
      let h := hash_combine h t.components_a
      hash_combine h (if t.allowed_swizzle then 1 else 0)
  | vkd3d_view_key.sampler s =>
      let h := s.Filter % 4294967296
      let h := hash_combine h s.AddressU
      let h := hash_combine h s.AddressV
      let h := hash_combine h s.AddressW
      let h := hash_combine h s.MipLODBias
      let h := hash_combine h s.MaxAnisotropy
      let h := hash_combine h s.ComparisonFunc
      let h :=
        if d3d12_sampler_needs_border_color s.AddressU s.AddressV s.AddressW then
          hash_combine (hash_combine (hash_combine (hash_combine h
            s.BorderColor0) s.BorderColor1) s.BorderColor2) s.BorderColor3
        else h
      let h := hash_combine h s.MinLOD
      hash_combine h s.MaxLOD

/-- resource.c lines 722-775: vkd3d_view_entry_compare, comparing a lookup
key against a stored entry's key.  The sampler arm skips the border-color
comparison when the lookup key's address modes do not need a border color. -/
def vkd3d_view_entry_compare : vkd3d_view_key → vkd3d_view_key → Bool
  | vkd3d_view_key.buffer k, vkd3d_view_key.buffer e =>
      k.buffer = e.buffer && k.format = e.format &&
        k.offset = e.offset && k.size = e.size
  | vkd3d_view_key.accelerationStructure k, vkd3d_view_key.accelerationStructure e =>
      k.buffer = e.buffer && k.format = e.format &&
        k.offset = e.offset && k.size = e.size
  | vkd3d_view_key.image k, vkd3d_view_key.image e =>
      k.image = e.image && k.view_type = e.view_type && k.format = e.format &&
        k.miplevel_idx = e.miplevel_idx && k.miplevel_count = e.miplevel_count &&
        k.miplevel_clamp = e.miplevel_clamp && k.layer_idx = e.layer_idx &&
        k.layer_count = e.layer_count && k.components_r = e.components_r &&
        k.components_g = e.components_g && k.components_b = e.components_b &&
        k.components_a = e.components_a && k.allowed_swizzle = e.allowed_swizzle
  | vkd3d_view_key.sampler k, vkd3d_view_key.sampler e =>
      k.Filter = e.Filter && k.AddressU = e.AddressU &&
        k.AddressV = e.AddressV && k.AddressW = e.AddressW &&
        k.MipLODBias = e.MipLODBias && k.MaxAnisotropy = e.MaxAnisotropy &&
        k.ComparisonFunc = e.ComparisonFunc &&
        (!(d3d12_sampler_needs_border_color k.AddressU k.AddressV k.AddressW) ||
          (k.BorderColor0 = e.BorderColor0 && k.BorderColor1 = e.BorderColor1 &&
            k.BorderColor2 = e.BorderColor2 && k.BorderColor3 = e.BorderColor3)) &&
        k.MinLOD = e.MinLOD && k.MaxLOD = e.MaxLOD
  | _, _ => false

/-- Two sampler descriptions agree on every field except possibly the four
border-color components. -/
def sampler_agree_except_border (k e : D3D12_SAMPLER_DESC) : Prop :=
  k.Filter = e.Filter ∧ k.AddressU = e.AddressU ∧ k.AddressV = e.AddressV ∧
    k.AddressW = e.AddressW ∧ k.MipLODBias = e.MipLODBias ∧
    k.MaxAnisotropy = e.MaxAnisotropy ∧ k.ComparisonFunc = e.ComparisonFunc ∧
    k.MinLOD = e.MinLOD ∧ k.MaxLOD = e.MaxLOD

instance (k e : D3D12_SAMPLER_DESC) : Decidable (sampler_agree_except_border k e) := by
  unfold sampler_agree_except_border
  infer_instance

/-! ## View map (resource.c lines 777-887)

The per-resource view cache maps a view key to a cached view object.  State:
the occupied entries of the hash map (as an association list in insertion
order), the live view objects with their reference counts, and the cookie
counter used by vkd3d_view_create.  Native view creation is modelled by the
boolean parameter passed to the create step (false = the driver call failed,
the source returns NULL). -/

structure vkd3d_view_map where
  entries : List (vkd3d_view_key × Nat)
  views : List (Nat × Nat)
  next_cookie : Nat
deriving DecidableEq, Repr

/-- Modelled from the spec: hash_map_find from hashmap.h (not under src/):
probe the occupied entries with the map's compare callback and return the
stored view of the first match. -/
def hash_map_find (entries : List (vkd3d_view_key × Nat)) (key : vkd3d_view_key) :
    Option Nat :=
  (entries.find? (fun e => vkd3d_view_entry_compare key e.1)).map (fun e => e.2)

/-- resource.c lines 2869-2873: vkd3d_view_decref drops one reference and
destroys the view when the count reaches zero (here: removes it from the
live list). -/
def vkd3d_view_decref (views : List (Nat × Nat)) (cookie : Nat) :
    List (Nat × Nat) :=
  views.filterMap (fun p =>
    if p.1 = cookie then
      if p.2 ≤ 1 then none else some (p.1, p.2 - 1)
    else some p)

/-- The read-locked probe of vkd3d_view_map_create_view (lines 816-825). -/
def view_map_try_find (m : vkd3d_view_map) (key : vkd3d_view_key) : Option Nat :=
  hash_map_find m.entries key

/-- The unlocked native view creation of vkd3d_view_map_create_view
(lines 827-853 together with vkd3d_view_create, lines 2822-2833): a fresh
view object with refcount 1 and a fresh cookie.  Returns the new view's
cookie. -/
def view_map_create_native (m : vkd3d_view_map) : Nat × vkd3d_view_map :=
  (m.next_cookie,
    { m with views := (m.next_cookie, 1) :: m.views,
             next_cookie := m.next_cookie + 1 })

/-- The write-locked insertion with reconciliation of
vkd3d_view_map_create_view (lines 861-884): hash_map_insert yields the
already-present entry when an equal key was inserted in the meantime; in that
losing case the freshly created view is released via vkd3d_view_decref and
the winning entry's view is returned. -/
def view_map_publish (m : vkd3d_view_map) (key : vkd3d_view_key) (vid : Nat) :
    Nat × vkd3d_view_map :=
  match hash_map_find m.entries key with
  | some winner => (winner, { m with views := vkd3d_view_decref m.views vid })
  | none => (vid, { m with entries := m.entries ++ [(key, vid)] })

/-- resource.c lines 806-887: vkd3d_view_map_create_view run without
interference from other threads.  native_ok models whether the unlocked
native view creation succeeds (on failure the source returns NULL and leaves
the map untouched). -/
def vkd3d_view_map_create_view (native_ok : Bool) (m : vkd3d_view_map)
    (key : vkd3d_view_key) : Option Nat × vkd3d_view_map :=
  match view_map_try_find m key with
  | some v => (some v, m)
  | none =>
      match native_ok with
      | false => (none, m)
      | true =>
          let (vid, m1) := view_map_create_native m
          let (v, m2) := view_map_publish m1 key vid
          (some v, m2)

/-- All live view cookies and map cookies are below the allocator state:
freshness of newly allocated cookies. -/
def view_map_fresh (m : vkd3d_view_map) : Prop :=
  ∀ p ∈ m.views, p.1 < m.next_cookie

instance (m : vkd3d_view_map) : Decidable (view_map_fresh m) := by
  unfold view_map_fresh
  infer_instance

/-- C9: view-key hashing and equality for sampler keys cover all sampler
description fields, except that the four border-color components are excluded
from both the hash and the equality comparison precisely when none of the
three address modes is the border mode; two sampler keys that differ only in
border color are treated as equal exactly when no address mode references the
border color. -/
theorem sampler_border_color_exclusion (k e : D3D12_SAMPLER_DESC) :
    (vkd3d_view_entry_compare (vkd3d_view_key.sampler k) (vkd3d_view_key.sampler e) = true →
      sampler_agree_except_border k e)
    ∧ (sampler_agree_except_border k e →
        d3d12_sampler_needs_border_color k.AddressU k.AddressV k.AddressW = false →
        vkd3d_view_entry_compare (vkd3d_view_key.sampler k) (vkd3d_view_key.sampler e) = true ∧
          vkd3d_view_entry_hash (vkd3d_view_key.sampler k) =
            vkd3d_view_entry_hash (vkd3d_view_key.sampler e))
    ∧ (sampler_agree_except_border k e →
        d3d12_sampler_needs_border_color k.AddressU k.AddressV k.AddressW = true →
        (vkd3d_view_entry_compare (vkd3d_view_key.sampler k) (vkd3d_view_key.sampler e) = true ↔
          (k.BorderColor0 = e.BorderColor0 ∧ k.BorderColor1 = e.BorderColor1 ∧
            k.BorderColor2 = e.BorderColor2 ∧ k.BorderColor3 = e.BorderColor3)))
    ∧ (sampler_agree_except_border k e →
        ¬(k.BorderColor0 = e.BorderColor0 ∧ k.BorderColor1 = e.BorderColor1 ∧
            k.BorderColor2 = e.BorderColor2 ∧ k.BorderColor3 = e.BorderColor3) →
        (vkd3d_view_entry_compare (vkd3d_view_key.sampler k) (vkd3d_view_key.sampler e) = true ↔
          d3d12_sampler_needs_border_color k.AddressU k.AddressV k.AddressW = false)) := by
  refine ⟨?_, ?_, ?_, ?_⟩
  · intro h
    simp only [vkd3d_view_entry_compare, Bool.and_eq_true, decide_eq_true_eq] at h
    unfold sampler_agree_except_border
    tauto
  · rintro ⟨h1, h2, h3, h4, h5, h6, h7, h8, h9⟩ hneeds
    refine ⟨?_, ?_⟩
    · simp [vkd3d_view_entry_compare, hneeds]
      tauto
    · have hneeds2 : d3d12_sampler_needs_border_color e.AddressU e.AddressV e.AddressW = false := by
        rw [← h2, ← h3, ← h4]; exact hneeds
      simp only [vkd3d_view_entry_hash]
      rw [h1, h2, h3, h4, h5, h6, h7, h8, h9]
      simp [hneeds2]
  · rintro ⟨h1, h2, h3, h4, h5, h6, h7, h8, h9⟩ hneeds
    simp [vkd3d_view_entry_compare, hneeds]
    tauto
  · rintro ⟨h1, h2, h3, h4, h5, h6, h7, h8, h9⟩ hdiff
    cases hb : d3d12_sampler_needs_border_color k.AddressU k.AddressV k.AddressW with
    | false =>
        simp [vkd3d_view_entry_compare, hb]
        tauto
    | true =>
        simp [vkd3d_view_entry_compare, hb]
        tauto

/-- Witness for the C9 theorem: two concrete sampler keys that differ only in
border color, with clamp address modes (no border referenced), compare equal
and hash identically; with a border address mode they compare unequal. -/
theorem sampler_border_color_exclusion_witness :
    (vkd3d_view_entry_compare
        (vkd3d_view_key.sampler ⟨1, 3, 3, 3, 0, 1, 0, 10, 11, 12, 13, 0, 100⟩)
        (vkd3d_view_key.sampler ⟨1, 3, 3, 3, 0, 1, 0, 20, 21, 22, 23, 0, 100⟩) = true ∧
      vkd3d_view_entry_hash
          (vkd3d_view_key.sampler ⟨1, 3, 3, 3, 0, 1, 0, 10, 11, 12, 13, 0, 100⟩) =
        vkd3d_view_entry_hash
          (vkd3d_view_key.sampler ⟨1, 3, 3, 3, 0, 1, 0, 20, 21, 22, 23, 0, 100⟩)) ∧
    (vkd3d_view_entry_compare
        (vkd3d_view_key.sampler ⟨1, 4, 3, 3, 0, 1, 0, 10, 11, 12, 13, 0, 100⟩)
        (vkd3d_view_key.sampler ⟨1, 4, 3, 3, 0, 1, 0, 20, 21, 22, 23, 0, 100⟩) = true ↔
      ((10 : Nat) = 20 ∧ (11 : Nat) = 21 ∧ (12 : Nat) = 22 ∧ (13 : Nat) = 23)) :=
  ⟨(sampler_border_color_exclusion
      ⟨1, 3, 3, 3, 0, 1, 0, 10, 11, 12, 13, 0, 100⟩
      ⟨1, 3, 3, 3, 0, 1, 0, 20, 21, 22, 23, 0, 100⟩).2.1 (by decide) (by decide),
    (sampler_border_color_exclusion
      ⟨1, 4, 3, 3, 0, 1, 0, 10, 11, 12, 13, 0, 100⟩
      ⟨1, 4, 3, 3, 0, 1, 0, 20, 21, 22, 23, 0, 100⟩).2.2.1 (by decide) (by decide)⟩

lemma hash_map_find_append_right (l1 l2 : List (vkd3d_view_key × Nat))
    (k : vkd3d_view_key) (h : hash_map_find l1 k = none) :
    hash_map_find (l1 ++ l2) k = hash_map_find l2 k := by
  unfold hash_map_find at *
  induction l1 with
  | nil => simp
  | cons p t ih =>
      simp only [List.find?_cons, List.cons_append] at *
      cases hc : vkd3d_view_entry_compare k p.1 with
      | true => simp [hc] at h
      | false =>
          simp only [hc] at h ⊢
          exact ih h

lemma vkd3d_view_decref_miss (vs : List (Nat × Nat)) (c : Nat)
    (h : ∀ p ∈ vs, p.1 ≠ c) : vkd3d_view_decref vs c = vs := by
  unfold vkd3d_view_decref
  induction vs with
  | nil => simp
  | cons p t ih =>
      simp only [List.filterMap_cons]
      have hp : p.1 ≠ c := h p (List.mem_cons_self p t)
      simp only [if_neg hp]
      rw [ih (fun q hq => h q (List.mem_cons_of_mem p hq))]

lemma vkd3d_view_decref_cons_refone (c : Nat) (vs : List (Nat × Nat)) :
    vkd3d_view_decref ((c, 1) :: vs) c = vkd3d_view_decref vs c := by
  unfold vkd3d_view_decref
  simp

lemma vkd3d_view_decref_cons_ne (c : Nat) (p : Nat × Nat) (vs : List (Nat × Nat))
    (h : p.1 ≠ c) : vkd3d_view_decref (p :: vs) c = p :: vkd3d_view_decref vs c := by
  unfold vkd3d_view_decref
  simp [h]

/-- C1: two view requests with equal keys are served by one view object.
First conjunct: the racing interleaving (both threads probe and miss, both
create a native view, thread A publishes first, thread B hits the occupied
entry at write-lock time, releases its redundant view via decref and returns
the winner).  Both threads get view a.1, the map gains exactly the one entry
(k, a.1), and exactly one live view object remains.  Second conjunct: a
sequential second request with an equal key returns the installed view and
changes nothing; over the pair the map gained one occupied entry and one live
view. -/
theorem view_map_create_view_dedup (m : vkd3d_view_map) (k k2 : vkd3d_view_key)
    (hfresh : view_map_fresh m)
    (hk : hash_map_find m.entries k = none)
    (hk2 : hash_map_find m.entries k2 = none)
    (hcmp : vkd3d_view_entry_compare k2 k = true) :
    (let a := view_map_create_native m
     let b := view_map_create_native a.2
     let pa := view_map_publish b.2 k a.1
     let pb := view_map_publish pa.2 k2 b.1
     pa.1 = a.1 ∧ pb.1 = a.1 ∧
       pb.2.entries = m.entries ++ [(k, a.1)] ∧
       pb.2.views = (a.1, 1) :: m.views) ∧
    (let r1 := vkd3d_view_map_create_view true m k
     let r2 := vkd3d_view_map_create_view true r1.2 k2
     r2.1 = r1.1 ∧ r2.2 = r1.2 ∧
       r1.2.entries.length = m.entries.length + 1 ∧
       r1.2.views.length = m.views.length + 1) := by
  have hfind_app :
      hash_map_find (m.entries ++ [(k, m.next_cookie)]) k2 = some m.next_cookie := by
    rw [hash_map_find_append_right m.entries _ k2 hk2]
    unfold hash_map_find
    simp [hcmp]
  have hdecref :
      vkd3d_view_decref ((m.next_cookie + 1, 1) :: (m.next_cookie, 1) :: m.views)
        (m.next_cookie + 1) = (m.next_cookie, 1) :: m.views := by
    rw [vkd3d_view_decref_cons_refone,
      vkd3d_view_decref_cons_ne _ _ _ (by omega),
      vkd3d_view_decref_miss m.views (m.next_cookie + 1)
        (fun p hp => by have := hfresh p hp; omega)]
  constructor
  · simp only [view_map_create_native, view_map_publish, hk, hfind_app, hdecref]
    refine ⟨?_, ?_, ?_, ?_⟩ <;> trivial
  · simp only [vkd3d_view_map_create_view, view_map_try_find, view_map_create_native,
      view_map_publish, hk, hfind_app]
    refine ⟨?_, ?_, ?_, ?_⟩ <;> first | trivial | simp

/-- Witness for the C1 theorem: the racing pair on an empty view map, both
threads requesting the same concrete buffer view key, ends with both holding
view 1, a single occupied entry and a single live view object. -/
theorem view_map_create_view_dedup_witness :
    (let m : vkd3d_view_map := ⟨[], [], 1⟩
     let k : vkd3d_view_key := vkd3d_view_key.buffer ⟨7, 0, 0, 256⟩
     let a := view_map_create_native m
     let b := view_map_create_native a.2
     let pa := view_map_publish b.2 k a.1
     let pb := view_map_publish pa.2 k b.1
     pa.1 = a.1 ∧ pb.1 = a.1 ∧
       pb.2.entries = m.entries ++ [(k, a.1)] ∧
       pb.2.views = (a.1, 1) :: m.views) :=
  (view_map_create_view_dedup ⟨[], [], 1⟩
    (vkd3d_view_key.buffer ⟨7, 0, 0, 256⟩) (vkd3d_view_key.buffer ⟨7, 0, 0, 256⟩)
    (by intro p hp; simp at hp) (by rfl) (by rfl) (by decide)).1

/-! ## Resource reference counting (resource.c lines 1230-1249, 1327-1356,
2347-2387, 2418-2476)

The model carries the public refcount, the internal refcount, the number of
references this resource currently holds on its owning device, and whether
the native object is still alive.  d3d12_resource_destroy releases the views,
the native object, the memory and exactly one device reference. -/

structure d3d12_resource_rc where
  refcount : Nat
  internal_refcount : Nat
  device_refs : Nat
  alive : Bool
deriving DecidableEq, Repr

/-- resource.c lines 2347-2387: d3d12_resource_destroy tears the native
object down and calls d3d12_device_release once. -/
def d3d12_resource_destroy (r : d3d12_resource_rc) : d3d12_resource_rc :=
  { r with device_refs := r.device_refs - 1, alive := false }

/-- resource.c lines 1230-1237. -/
def d3d12_resource_incref (r : d3d12_resource_rc) : d3d12_resource_rc :=
  { r with internal_refcount := r.internal_refcount + 1 }

/-- resource.c lines 1239-1249: decrement the internal refcount and destroy
the resource when it reaches zero. -/
def d3d12_resource_decref (r : d3d12_resource_rc) : d3d12_resource_rc :=
  let r2 := { r with internal_refcount := r.internal_refcount - 1 }
  if r2.internal_refcount = 0 then d3d12_resource_destroy r2 else r2

/-- resource.c lines 1327-1343: public AddRef; crossing 0 to 1 acquires a
device reference and an internal reference. -/
def d3d12_resource_AddRef (r : d3d12_resource_rc) : d3d12_resource_rc :=
  let r2 := { r with refcount := r.refcount + 1 }
  if r2.refcount = 1 then
    d3d12_resource_incref { r2 with device_refs := r2.device_refs + 1 }
  else r2

/-- resource.c lines 1345-1356: public Release; reaching 0 drops one internal
reference (and only the internal zero-crossing destroys the object). -/
def d3d12_resource_Release (r : d3d12_resource_rc) : d3d12_resource_rc :=
  let r2 := { r with refcount := r.refcount - 1 }
  if r2.refcount = 0 then d3d12_resource_decref r2 else r2

/-- resource.c lines 2449-2450 with 2469: a freshly created resource has
public refcount 1, internal refcount 1 and holds one device reference. -/
def d3d12_resource_created : d3d12_resource_rc :=
  { refcount := 1, internal_refcount := 1, device_refs := 1, alive := true }

/-- Counterexample for C2 as stated: create a resource, take one extra
internal reference (the exported vkd3d_resource_incref, resource.c lines
2809-2813, as a view or in-flight command list would), then drop the last
public reference.  The public refcount reaches 0 and the internal refcount is
decremented, but the device reference is NOT released at that point: it is
only released by d3d12_resource_destroy once the internal refcount reaches
zero. -/
theorem release_does_not_release_device_ref :
    (d3d12_resource_Release (d3d12_resource_incref d3d12_resource_created)).refcount = 0 ∧
    (d3d12_resource_Release (d3d12_resource_incref d3d12_resource_created)).internal_refcount = 1 ∧
    ¬((d3d12_resource_Release (d3d12_resource_incref d3d12_resource_created)).device_refs = 0) ∧
    (d3d12_resource_Release (d3d12_resource_incref d3d12_resource_created)).alive = true := by
  decide

lemma d3d12_resource_Release_last (r : d3d12_resource_rc) (h1 : r.refcount = 1)
    (hz : r.internal_refcount = 1) :
    d3d12_resource_Release r =
      { refcount := 0, internal_refcount := 0,
        device_refs := r.device_refs - 1, alive := false } := by
  simp [d3d12_resource_Release, d3d12_resource_decref, d3d12_resource_destroy, h1, hz]

lemma d3d12_resource_Release_held (r : d3d12_resource_rc) (h1 : r.refcount = 1)
    (hz : r.internal_refcount ≠ 1) (hint : 0 < r.internal_refcount) :
    d3d12_resource_Release r =
      { r with refcount := 0, internal_refcount := r.internal_refcount - 1 } := by
  have hnz : ¬(r.internal_refcount - 1 = 0) := by omega
  simp [d3d12_resource_Release, d3d12_resource_decref, h1, hnz]

/-- C2 (amended): a public AddRef crossing 0 to 1 acquires one device
reference and increments the internal refcount; a public Release reaching 0
decrements the internal refcount; the device reference is released and the
native object destroyed exactly when the internal refcount reaches zero,
never while it is positive. -/
theorem resource_refcount_lifecycle (r : d3d12_resource_rc)
    (halive : r.alive = true) (hint : 0 < r.internal_refcount)
    (hdev : 0 < r.device_refs) :
    (r.refcount = 0 →
      d3d12_resource_AddRef r =
        { r with refcount := 1, internal_refcount := r.internal_refcount + 1,
                 device_refs := r.device_refs + 1 }) ∧
    (r.refcount = 1 →
      (d3d12_resource_Release r).internal_refcount = r.internal_refcount - 1 ∧
      ((d3d12_resource_Release r).alive = false ↔ r.internal_refcount = 1) ∧
      ((d3d12_resource_Release r).device_refs = r.device_refs - 1 ↔
        r.internal_refcount = 1) ∧
      (r.internal_refcount ≠ 1 →
        (d3d12_resource_Release r).device_refs = r.device_refs ∧
        (d3d12_resource_Release r).alive = true)) ∧
    ((d3d12_resource_decref r).alive = false ↔ r.internal_refcount = 1) ∧
    ((d3d12_resource_incref r).alive = true ∧
      (d3d12_resource_AddRef r).alive = true) := by
  refine ⟨?_, ?_, ?_, ?_⟩
  · intro h0
    simp only [d3d12_resource_AddRef, d3d12_resource_incref, h0]
    rfl
  · intro h1
    by_cases hz : r.internal_refcount = 1
    · rw [d3d12_resource_Release_last r h1 hz]
      refine ⟨by simp [hz], by simp [hz], by simp [hz], fun h => absurd hz h⟩
    · rw [d3d12_resource_Release_held r h1 hz hint]
      refine ⟨rfl, by simp [halive, hz], ?_, fun _ => ⟨rfl, halive⟩⟩
      simp only [hz, iff_false]
      omega
  · simp only [d3d12_resource_decref, d3d12_resource_destroy]
    by_cases hz : r.internal_refcount - 1 = 0
    · simp only [hz, if_pos]
      simp
      omega
    · simp only [hz, if_neg, if_false]
      simp [halive]
      omega
  · refine ⟨by simp [d3d12_resource_incref, halive], ?_⟩
    simp only [d3d12_resource_AddRef, d3d12_resource_incref]
    by_cases h1 : r.refcount + 1 = 1 <;> simp [h1, halive]

/-- Witness for the C2 theorem at the freshly created resource: releasing
from refcount 1 with internal refcount 1 destroys the object and drops the
device reference. -/
theorem resource_refcount_lifecycle_witness :
    (d3d12_resource_Release d3d12_resource_created).internal_refcount = 0 ∧
    (d3d12_resource_Release d3d12_resource_created).alive = false ∧
    (d3d12_resource_Release d3d12_resource_created).device_refs =
      d3d12_resource_created.device_refs - 1 :=
  have h := (resource_refcount_lifecycle d3d12_resource_created
    (by decide) (by decide) (by decide)).2.1 rfl
  ⟨h.1, h.2.1.mpr rfl, h.2.2.1.mpr rfl⟩

/-! ## Allocation info for images (resource.c lines 609-652)

The throwaway native image's memory requirements are an input parameter; the
function body is the post-processing the source applies to them. -/

structure VkMemoryRequirements where
  size : Nat
  alignment : Nat
deriving DecidableEq, Repr

structure D3D12_RESOURCE_ALLOCATION_INFO where
  SizeInBytes : Nat
  Alignment : Nat
deriving DecidableEq, Repr

/-- The target alignment used by vkd3d_get_image_allocation_info. -/
def allocation_target_alignment (descAlignment : Nat) : Nat :=
  if descAlignment ≠ 0 then descAlignment
  else D3D12_DEFAULT_RESOURCE_PLACEMENT_ALIGNMENT

/-- resource.c lines 637-649: report the queried size and alignment, but when
the native alignment exceeds the target alignment (the declared Alignment, or
the default placement alignment when it is zero), pad the size by the
difference and clamp the reported alignment down to the target. -/
def vkd3d_get_image_allocation_info (descAlignment : Nat)
    (req : VkMemoryRequirements) : D3D12_RESOURCE_ALLOCATION_INFO :=
  let target := allocation_target_alignment descAlignment
  if target < req.alignment then
    { SizeInBytes := req.size + (req.alignment - target), Alignment := target }
  else
    { SizeInBytes := req.size, Alignment := req.alignment }

/-- C6: when the native memory-requirement alignment exceeds the target
alignment, get_allocation_info reports SizeInBytes inflated by exactly the
difference and Alignment clamped down to the target; otherwise it reports the
queried native size and alignment unchanged. -/
theorem image_allocation_info_clamp (descAlignment : Nat)
    (req : VkMemoryRequirements) :
    (allocation_target_alignment descAlignment < req.alignment →
      vkd3d_get_image_allocation_info descAlignment req =
        { SizeInBytes :=
            req.size + (req.alignment - allocation_target_alignment descAlignment),
          Alignment := allocation_target_alignment descAlignment }) ∧
    (req.alignment ≤ allocation_target_alignment descAlignment →
      vkd3d_get_image_allocation_info descAlignment req =
        { SizeInBytes := req.size, Alignment := req.alignment }) := by
  unfold vkd3d_get_image_allocation_info allocation_target_alignment
  constructor
  · intro h
    simp only [if_pos h]
  · intro h
    have h2 : ¬(_ < req.alignment) := not_lt.mpr h
    simp only [if_neg h2]

/-- Witness for the C6 theorem: a 4 MiB native alignment against the 64 KiB
default target inflates the size by the difference and clamps the alignment. -/
theorem image_allocation_info_clamp_witness :
    vkd3d_get_image_allocation_info 0 ⟨4194304, 4194304⟩ =
      { SizeInBytes := 4194304 + (4194304 - 65536), Alignment := 65536 } :=
  (image_allocation_info_clamp 0 ⟨4194304, 4194304⟩).1 (by decide)

/-! ## Heap validation and placed resources (resource.c lines 2593-2712) -/

def D3D12_HEAP_FLAG_SHARED_CROSS_ADAPTER : Nat := 32

def D3D12_HEAP_FLAG_DENY_BUFFERS : Nat := 4

def D3D12_HEAP_FLAG_DENY_RT_DS_TEXTURES : Nat := 64

def D3D12_HEAP_FLAG_DENY_NON_RT_DS_TEXTURES : Nat := 128

def D3D12_RESOURCE_FLAG_ALLOW_RENDER_TARGET : Nat := 1

def D3D12_RESOURCE_FLAG_ALLOW_DEPTH_STENCIL : Nat := 2

def D3D12_RESOURCE_FLAG_ALLOW_CROSS_ADAPTER : Nat := 16

/-- The resource description fields create_placed and validate_heap read:
whether the dimension is BUFFER, the resource flags, the width and the
declared alignment. -/
structure placed_resource_desc where
  is_buffer : Bool
  Flags : Nat
  Width : Nat
  Alignment : Nat
deriving DecidableEq, Repr

/-- The heap fields create_placed reads: desc.Flags and the backing
allocation size (heap->allocation.resource.size).  Only heaps with memory
backing are modelled (the source falls back to a committed resource
otherwise). -/
structure d3d12_heap_model where
  flags : Nat
  size : Nat
deriving DecidableEq, Repr

inductive HRESULT where
  | S_OK
  | E_INVALIDARG
deriving DecidableEq, Repr

/-- resource.c lines 2595-2602: the heap deny flag matching the resource's
declared category. -/
def d3d12_resource_deny_flag (desc : placed_resource_desc) : Nat :=
  if desc.is_buffer then D3D12_HEAP_FLAG_DENY_BUFFERS
  else if desc.Flags &&& (D3D12_RESOURCE_FLAG_ALLOW_RENDER_TARGET |||
      D3D12_RESOURCE_FLAG_ALLOW_DEPTH_STENCIL) ≠ 0 then
    D3D12_HEAP_FLAG_DENY_RT_DS_TEXTURES
  else D3D12_HEAP_FLAG_DENY_NON_RT_DS_TEXTURES

/-- resource.c lines 2593-2618: d3d12_resource_validate_heap. -/
def d3d12_resource_validate_heap (desc : placed_resource_desc)
    (heap : d3d12_heap_model) : HRESULT :=
  if heap.flags &&& d3d12_resource_deny_flag desc ≠ 0 then HRESULT.E_INVALIDARG
  else if heap.flags &&& D3D12_HEAP_FLAG_SHARED_CROSS_ADAPTER ≠ 0 ∧
      desc.Flags &&& D3D12_RESOURCE_FLAG_ALLOW_CROSS_ADAPTER = 0 then
    HRESULT.E_INVALIDARG
  else HRESULT.S_OK

/-- resource.c lines 2620-2712: d3d12_resource_create_placed for a heap with
memory backing, assuming the description validates and the native object
creation and binding succeed.  req is the native memory requirement of the
created image (texture path).  On success, returns the offset at which the
resource was placed inside the heap allocation. -/
def d3d12_resource_create_placed (desc : placed_resource_desc)
    (heap : d3d12_heap_model) (heap_offset : Nat) (req : VkMemoryRequirements) :
    Except HRESULT Nat :=
  match d3d12_resource_validate_heap desc heap with
  | HRESULT.E_INVALIDARG => Except.error HRESULT.E_INVALIDARG
  | HRESULT.S_OK =>
      if desc.is_buffer then
        if heap.size < heap_offset + desc.Width then
          Except.error HRESULT.E_INVALIDARG
        else Except.ok heap_offset
      else
        let offset2 := align heap_offset req.alignment
        if heap.size < offset2 + req.size then Except.error HRESULT.E_INVALIDARG
        else Except.ok offset2

lemma le_align (v a : Nat) (ha : 0 < a) : v ≤ align v a := by
  unfold align
  rcases v with _ | w
  · exact Nat.zero_le _
  · have h : w + 1 + a - 1 = w + a := by omega
    rw [h, Nat.add_div_right _ ha, Nat.succ_mul]
    have h2 : w < w / a * a + a := Nat.lt_div_mul_add ha
    omega

lemma align_ge_alignment (v a : Nat) (ha : 0 < a) (hv : 0 < v) :
    a ≤ align v a := by
  unfold align
  have h1 : 1 ≤ (v + a - 1) / a := by
    have : a ≤ v + a - 1 := by omega
    calc 1 = a / a := (Nat.div_self ha).symm
    _ ≤ (v + a - 1) / a := Nat.div_le_div_right this
  calc a = 1 * a := (Nat.one_mul a).symm
  _ ≤ (v + a - 1) / a * a := Nat.mul_le_mul_right a h1

lemma align_zero (a : Nat) (ha : 0 < a) : align 0 a = 0 := by
  unfold align
  have h : (0 + a - 1) / a = 0 := Nat.div_eq_of_lt (by omega)
  rw [h, Nat.zero_mul]

lemma validate_heap_invalid_iff (desc : placed_resource_desc)
    (heap : d3d12_heap_model) :
    d3d12_resource_validate_heap desc heap = HRESULT.E_INVALIDARG ↔
      (heap.flags &&& d3d12_resource_deny_flag desc ≠ 0 ∨
        (heap.flags &&& D3D12_HEAP_FLAG_SHARED_CROSS_ADAPTER ≠ 0 ∧
          desc.Flags &&& D3D12_RESOURCE_FLAG_ALLOW_CROSS_ADAPTER = 0)) := by
  unfold d3d12_resource_validate_heap
  by_cases h1 : heap.flags &&& d3d12_resource_deny_flag desc ≠ 0
  · simp [h1]
  · simp only [if_neg h1]
    by_cases h2 : heap.flags &&& D3D12_HEAP_FLAG_SHARED_CROSS_ADAPTER ≠ 0 ∧
        desc.Flags &&& D3D12_RESOURCE_FLAG_ALLOW_CROSS_ADAPTER = 0
    · simp [h2, h1]
    · simp [h2, h1]

lemma validate_heap_sok (desc : placed_resource_desc) (heap : d3d12_heap_model)
    (h : ¬(heap.flags &&& d3d12_resource_deny_flag desc ≠ 0 ∨
      (heap.flags &&& D3D12_HEAP_FLAG_SHARED_CROSS_ADAPTER ≠ 0 ∧
        desc.Flags &&& D3D12_RESOURCE_FLAG_ALLOW_CROSS_ADAPTER = 0))) :
    d3d12_resource_validate_heap desc heap = HRESULT.S_OK := by
  rcases hv : d3d12_resource_validate_heap desc heap with _ | _
  · rfl
  · exact absurd ((validate_heap_invalid_iff desc heap).mp hv) h

/-- Counterexample for C7 as stated: a texture placed at offset 0 into a
huge shared-cross-adapter heap fails with InvalidArgument even though the
aligned offset plus the required size fits and the heap does not deny the
resource's category — the cross-adapter flag mismatch is a third failure
condition the claim omits. -/
theorem create_placed_cross_adapter_counterexample :
    d3d12_resource_create_placed
        { is_buffer := false, Flags := 0, Width := 0, Alignment := 0 }
        { flags := 32, size := 10000000 } 0 { size := 65536, alignment := 65536 } =
      Except.error HRESULT.E_INVALIDARG ∧
    (32 : Nat) &&& d3d12_resource_deny_flag
        { is_buffer := false, Flags := 0, Width := 0, Alignment := 0 } = 0 ∧
    align 0 65536 + 65536 ≤ 10000000 :=
  ⟨rfl, by decide, by decide⟩

lemma alloc_info_tail_overflow (descAlignment : Nat) (req : VkMemoryRequirements)
    (ha : 0 < req.alignment) (hs : 2 ≤ req.size) :
    (vkd3d_get_image_allocation_info descAlignment req).SizeInBytes <
      align ((vkd3d_get_image_allocation_info descAlignment req).SizeInBytes - 1)
        req.alignment + req.size := by
  have ht : 0 < allocation_target_alignment descAlignment := by
    unfold allocation_target_alignment
    by_cases h : descAlignment ≠ 0
    · simp only [if_pos h]
      omega
    · simp only [if_neg h]
      decide
  by_cases hc : allocation_target_alignment descAlignment < req.alignment
  · have hS : (vkd3d_get_image_allocation_info descAlignment req).SizeInBytes =
        req.size + (req.alignment - allocation_target_alignment descAlignment) := by
      unfold vkd3d_get_image_allocation_info
      simp only [if_pos hc]
    rw [hS]
    have h1 : 0 < req.size + (req.alignment - allocation_target_alignment descAlignment) - 1 := by
      omega
    have h2 := align_ge_alignment
      (req.size + (req.alignment - allocation_target_alignment descAlignment) - 1)
      req.alignment ha h1
    omega
  · have hS : (vkd3d_get_image_allocation_info descAlignment req).SizeInBytes =
        req.size := by
      unfold vkd3d_get_image_allocation_info
      simp only [if_neg hc]
    rw [hS]
    have h2 := le_align (req.size - 1) req.alignment ha
    omega

lemma alloc_info_size_ge (descAlignment : Nat) (req : VkMemoryRequirements) :
    req.size ≤ (vkd3d_get_image_allocation_info descAlignment req).SizeInBytes := by
  unfold vkd3d_get_image_allocation_info
  by_cases hc : allocation_target_alignment descAlignment < req.alignment
  · simp only [if_pos hc]
    omega
  · simp only [if_neg hc]
    omega

/-- C7 (amended): for a texture, create_placed re-aligns the caller's offset
upward to the native alignment and fails with InvalidArgument exactly when
the re-aligned offset plus the required size exceeds the heap's capacity,
when the heap's deny flags deny the resource's category, or when the heap is
shared-cross-adapter and the resource does not declare ALLOW_CROSS_ADAPTER;
and for any validating description whose native size is at least two bytes,
placing at offset 0 into a heap sized exactly to get_allocation_info's
SizeInBytes succeeds while placing at offset SizeInBytes - 1 fails with
InvalidArgument. -/
theorem create_placed_capacity_exact (desc : placed_resource_desc)
    (heap : d3d12_heap_model) (heap_offset : Nat) (req : VkMemoryRequirements)
    (hbuf : desc.is_buffer = false) :
    ((d3d12_resource_create_placed desc heap heap_offset req =
        Except.error HRESULT.E_INVALIDARG) ↔
      (heap.flags &&& d3d12_resource_deny_flag desc ≠ 0 ∨
        (heap.flags &&& D3D12_HEAP_FLAG_SHARED_CROSS_ADAPTER ≠ 0 ∧
          desc.Flags &&& D3D12_RESOURCE_FLAG_ALLOW_CROSS_ADAPTER = 0) ∨
        heap.size < align heap_offset req.alignment + req.size)) ∧
    (d3d12_resource_validate_heap desc heap = HRESULT.S_OK →
      align heap_offset req.alignment + req.size ≤ heap.size →
      d3d12_resource_create_placed desc heap heap_offset req =
        Except.ok (align heap_offset req.alignment)) ∧
    (d3d12_resource_validate_heap desc heap = HRESULT.S_OK →
      0 < req.alignment → 2 ≤ req.size →
      (d3d12_resource_create_placed desc
          { flags := heap.flags,
            size := (vkd3d_get_image_allocation_info desc.Alignment req).SizeInBytes }
          0 req = Except.ok 0 ∧
        d3d12_resource_create_placed desc
          { flags := heap.flags,
            size := (vkd3d_get_image_allocation_info desc.Alignment req).SizeInBytes }
          ((vkd3d_get_image_allocation_info desc.Alignment req).SizeInBytes - 1) req =
          Except.error HRESULT.E_INVALIDARG)) := by
  refine ⟨?_, ?_, ?_⟩
  · by_cases hd : (heap.flags &&& d3d12_resource_deny_flag desc ≠ 0 ∨
        (heap.flags &&& D3D12_HEAP_FLAG_SHARED_CROSS_ADAPTER ≠ 0 ∧
          desc.Flags &&& D3D12_RESOURCE_FLAG_ALLOW_CROSS_ADAPTER = 0))
    · have hv := (validate_heap_invalid_iff desc heap).mpr hd
      simp only [d3d12_resource_create_placed, hv]
      tauto
    · have hv := validate_heap_sok desc heap hd
      simp only [d3d12_resource_create_placed, hv, hbuf, Bool.false_eq_true, if_false]
      by_cases hs : heap.size < align heap_offset req.alignment + req.size
      · simp only [if_pos hs]
        tauto
      · simp only [if_neg hs]
        constructor
        · intro habs
          exact absurd habs (by simp)
        · intro hr
          rcases hr with h | h | h
          · exact absurd (Or.inl h) hd
          · exact absurd (Or.inr h) hd
          · exact absurd h hs
  · intro hv hfit
    have hs : ¬(heap.size < align heap_offset req.alignment + req.size) := by omega
    simp only [d3d12_resource_create_placed, hv, hbuf, Bool.false_eq_true, if_false,
      if_neg hs]
  · intro hv ha hsz
    have hv2 : d3d12_resource_validate_heap desc
        { flags := heap.flags,
          size := (vkd3d_get_image_allocation_info desc.Alignment req).SizeInBytes } =
        HRESULT.S_OK := hv
    constructor
    · have hz := align_zero req.alignment ha
      have hge := alloc_info_size_ge desc.Alignment req
      have hs : ¬(((vkd3d_get_image_allocation_info desc.Alignment req).SizeInBytes : Nat) <
          0 + req.size) := by
        omega
      simp only [d3d12_resource_create_placed, hv2, hbuf, Bool.false_eq_true, if_false,
        hz, if_neg hs]
    · have hov := alloc_info_tail_overflow desc.Alignment req ha hsz
      simp only [d3d12_resource_create_placed, hv2, hbuf, Bool.false_eq_true, if_false,
        if_pos hov]

/-- Witness for the C7 theorem: a plain texture on a heap with no deny flags,
native requirement 131072 bytes at 65536 alignment; placing at offset 1
re-aligns to 65536, and the get_allocation_info round trip succeeds at offset
0 and fails at SizeInBytes - 1. -/
theorem create_placed_capacity_exact_witness :
    (d3d12_resource_create_placed
        { is_buffer := false, Flags := 0, Width := 0, Alignment := 0 }
        { flags := 0, size := 1000000 } 1 { size := 131072, alignment := 65536 } =
      Except.ok 65536) ∧
    (d3d12_resource_create_placed
        { is_buffer := false, Flags := 0, Width := 0, Alignment := 0 }
        { flags := 0,
          size := (vkd3d_get_image_allocation_info 0 ⟨131072, 65536⟩).SizeInBytes }
        0 ⟨131072, 65536⟩ = Except.ok 0 ∧
      d3d12_resource_create_placed
        { is_buffer := false, Flags := 0, Width := 0, Alignment := 0 }
        { flags := 0,
          size := (vkd3d_get_image_allocation_info 0 ⟨131072, 65536⟩).SizeInBytes }
        ((vkd3d_get_image_allocation_info 0 ⟨131072, 65536⟩).SizeInBytes - 1)
        ⟨131072, 65536⟩ = Except.error HRESULT.E_INVALIDARG) :=
  ⟨by
    have h := (create_placed_capacity_exact
      { is_buffer := false, Flags := 0, Width := 0, Alignment := 0 }
      { flags := 0, size := 1000000 } 1 ⟨131072, 65536⟩ rfl).2.1
      (by decide) (by decide)
    simpa using h,
   (create_placed_capacity_exact
      { is_buffer := false, Flags := 0, Width := 0, Alignment := 0 }
      { flags := 0, size := 1000000 } 0 ⟨131072, 65536⟩ rfl).2.2
      (by decide) (by decide) (by decide)⟩

/-! ## Sparse buffer tiling (resource.c lines 1119-1138 and 2279-2339)

VKD3D_TILE_SIZE is a constant of the private headers (not under src/; the
spec describes 64 KiB tiles), so the tile size is kept as a parameter. -/

structure d3d12_sparse_buffer_tile where
  offset : Nat
  length : Nat
  vk_memory : Nat
  vk_offset : Nat
deriving DecidableEq, Repr

/-- resource.c line 1121, buffer arm of d3d12_resource_get_tiling:
tile_count = align(width, TILE_SIZE) / TILE_SIZE. -/
def d3d12_buffer_tile_count (width tile_size : Nat) : Nat :=
  align width tile_size / tile_size

/-- resource.c lines 2279-2339, buffer arm of d3d12_resource_init_sparse_info:
tile i spans byte offset TILE_SIZE * i with length
min(TILE_SIZE, width - offset), and every tile starts with a null native
memory handle and zero memory offset. -/
def d3d12_resource_init_sparse_buffer_tiles (width tile_size : Nat) :
    List d3d12_sparse_buffer_tile :=
  (List.range (d3d12_buffer_tile_count width tile_size)).map (fun i =>
    { offset := tile_size * i,
      length := min tile_size (width - tile_size * i),
      vk_memory := 0,
      vk_offset := 0 })

/-- C8: a reserved buffer of width W has exactly ceil(W / TILE_SIZE) sparse
tiles; tile i covers byte offset TILE_SIZE * i with length
min(TILE_SIZE, W - TILE_SIZE * i) (so tile 0 covers bytes
[0, min(TILE_SIZE, W))); and immediately after creation every tile is
unbound, with a null native memory handle and zero memory offset. -/
theorem sparse_buffer_tile_table (width tile_size : Nat) (ht : 0 < tile_size) :
    (d3d12_resource_init_sparse_buffer_tiles width tile_size).length =
      (width + tile_size - 1) / tile_size ∧
    (∀ i, i < d3d12_buffer_tile_count width tile_size →
      (d3d12_resource_init_sparse_buffer_tiles width tile_size)[i]? =
        some { offset := tile_size * i,
               length := min tile_size (width - tile_size * i),
               vk_memory := 0, vk_offset := 0 }) ∧
    (0 < width →
      (d3d12_resource_init_sparse_buffer_tiles width tile_size)[0]? =
        some { offset := 0, length := min tile_size width,
               vk_memory := 0, vk_offset := 0 }) ∧
    (∀ t ∈ d3d12_resource_init_sparse_buffer_tiles width tile_size,
      t.vk_memory = 0 ∧ t.vk_offset = 0) := by
  have hcount : d3d12_buffer_tile_count width tile_size =
      (width + tile_size - 1) / tile_size := by
    unfold d3d12_buffer_tile_count align
    exact Nat.mul_div_cancel _ ht
  have hget : ∀ i, i < d3d12_buffer_tile_count width tile_size →
      (d3d12_resource_init_sparse_buffer_tiles width tile_size)[i]? =
        some { offset := tile_size * i,
               length := min tile_size (width - tile_size * i),
               vk_memory := 0, vk_offset := 0 } := by
    intro i hi
    unfold d3d12_resource_init_sparse_buffer_tiles
    rw [List.getElem?_map, List.getElem?_range hi]
    rfl
  refine ⟨?_, hget, ?_, ?_⟩
  · unfold d3d12_resource_init_sparse_buffer_tiles
    rw [List.length_map, List.length_range, hcount]
  · intro hw
    have h0 : 0 < d3d12_buffer_tile_count width tile_size := by
      rw [hcount]
      have : 0 < (width + tile_size - 1) / tile_size := by
        apply Nat.div_pos _ ht
        omega
      exact this
    have := hget 0 h0
    simpa using this
  · intro t htmem
    unfold d3d12_resource_init_sparse_buffer_tiles at htmem
    rcases List.mem_map.mp htmem with ⟨i, _, hi⟩
    rw [← hi]
    exact ⟨rfl, rfl⟩

/-- Witness for the C8 theorem: a reserved buffer of three and a half 64 KiB
tiles has 4 tiles; tile 3 covers the trailing half tile and every tile starts
unbound. -/
theorem sparse_buffer_tile_table_witness :
    (d3d12_resource_init_sparse_buffer_tiles 229376 65536).length =
      (229376 + 65536 - 1) / 65536 ∧
    (d3d12_resource_init_sparse_buffer_tiles 229376 65536)[3]? =
      some { offset := 65536 * 3, length := min 65536 (229376 - 65536 * 3),
             vk_memory := 0, vk_offset := 0 } ∧
    (d3d12_resource_init_sparse_buffer_tiles 229376 65536)[0]? =
      some { offset := 0, length := min 65536 229376,
             vk_memory := 0, vk_offset := 0 } := by
  have h := sparse_buffer_tile_table 229376 65536 (by decide)
  exact ⟨h.1, h.2.1 3 (by decide), h.2.2.1 (by decide)⟩

/-! ## Descriptor write engine (resource.c lines 3524-3659, 3782-3924,
4287-4383)

Slot metadata mirrors struct vkd3d_descriptor_metadata: a cookie, the mask of
native sets holding a live write, flag bits and the recorded null placeholder
subtype.  The flag bit values live in the private headers (not under src/);
only their distinctness matters here.  native_update_calls counts the
vkUpdateDescriptorSets invocations an operation performs. -/

def VKD3D_DESCRIPTOR_FLAG_VIEW : Nat := 1

def VKD3D_DESCRIPTOR_FLAG_NON_NULL : Nat := 2

def VKD3D_DESCRIPTOR_FLAG_OFFSET_RANGE : Nat := 4

def VKD3D_DESCRIPTOR_FLAG_RAW_VA_AUX_BUFFER : Nat := 8

def VKD3D_DESCRIPTOR_FLAG_BUFFER_OFFSET : Nat := 16

def VK_DESCRIPTOR_TYPE_SAMPLED_IMAGE : Nat := 2

def VK_DESCRIPTOR_TYPE_STORAGE_IMAGE : Nat := 3

def VK_DESCRIPTOR_TYPE_UNIFORM_TEXEL_BUFFER : Nat := 4

def VK_DESCRIPTOR_TYPE_UNIFORM_BUFFER : Nat := 6

def VK_DESCRIPTOR_TYPE_STORAGE_BUFFER : Nat := 7

structure vkd3d_descriptor_metadata where
  cookie : Nat
  set_info_mask : Nat
  flags : Nat
  current_null_type : Nat
deriving DecidableEq, Repr

/-- The slot's cached payload (union vkd3d_descriptor_info): the buffer
descriptor info or the bound view's cookie. -/
structure vkd3d_descriptor_info where
  buffer_buffer : Nat
  buffer_offset : Nat
  buffer_range : Nat
  view : Nat
deriving DecidableEq, Repr

def vkd3d_descriptor_info_zero : vkd3d_descriptor_info :=
  { buffer_buffer := 0, buffer_offset := 0, buffer_range := 0, view := 0 }

structure d3d12_desc where
  metadata : vkd3d_descriptor_metadata
  info : vkd3d_descriptor_info
  heap_offset : Nat
deriving DecidableEq, Repr

structure vkd3d_null_descriptor_template where
  has_mutable_descriptors : Bool
  num_writes : Nat
  set_info_mask : Nat
deriving DecidableEq, Repr

structure d3d12_descriptor_heap where
  null_descriptor_template : vkd3d_null_descriptor_template
  raw_va_aux_buffer : Option (List Nat)
deriving DecidableEq, Repr

structure descriptor_write_result where
  desc : d3d12_desc
  heap : d3d12_descriptor_heap
  native_update_calls : Nat
deriving DecidableEq, Repr

/-- Store a raw device address into the heap's raw VA side buffer (a host
write, not a native descriptor update), when the heap has one. -/
def raw_va_aux_buffer_store (heap : d3d12_descriptor_heap) (idx val : Nat) :
    d3d12_descriptor_heap :=
  { heap with raw_va_aux_buffer := heap.raw_va_aux_buffer.map (fun l => l.set idx val) }

/-- resource.c lines 3540-3602: d3d12_descriptor_heap_write_null_descriptor_template.
Without mutable-descriptor support the placeholder subtype is coerced to a
dummy value 0 first; the write is skipped when the slot is already null
(NON_NULL clear) with the same recorded placeholder subtype; otherwise one
vkUpdateDescriptorSets call replays the template, the metadata is reset
(cookie 0, flags 0, the template's set mask, the new subtype), the cached
info is zeroed and the raw VA side-buffer entry is cleared. -/
def d3d12_descriptor_heap_write_null_descriptor_template
    (heap : d3d12_descriptor_heap) (desc : d3d12_desc)
    (vk_mutable_descriptor_type : Nat) : descriptor_write_result :=
  let ty := if heap.null_descriptor_template.has_mutable_descriptors then
    vk_mutable_descriptor_type else 0
  if desc.metadata.flags &&& VKD3D_DESCRIPTOR_FLAG_NON_NULL = 0 ∧
      desc.metadata.current_null_type = ty then
    { desc := desc, heap := heap, native_update_calls := 0 }
  else
    { desc :=
        { metadata :=
            { cookie := 0,
              set_info_mask := heap.null_descriptor_template.set_info_mask,
              flags := 0,
              current_null_type := ty },
          info := vkd3d_descriptor_info_zero,
          heap_offset := desc.heap_offset },
      heap := raw_va_aux_buffer_store heap desc.heap_offset 0,
      native_update_calls := 1 }

/-- struct vkd3d_unique_resource: the VA-map entry for a buffer resource. -/
structure vkd3d_unique_resource where
  vk_buffer : Nat
  va : Nat
  size : Nat
  cookie : Nat
deriving DecidableEq, Repr

/-- Modelled from the spec: vkd3d_va_map_deref of the process-wide VA map
collaborator (not under src/): resolve a raw device address to the resource
whose address range contains it. -/
def vkd3d_va_map_deref (m : List vkd3d_unique_resource) (addr : Nat) :
    Option vkd3d_unique_resource :=
  m.find? (fun r => decide (r.va ≤ addr) && decide (addr < r.va + r.size))

/-- The device state the descriptor-create operations read: the VA map, the
bindless-set configuration (resolved set indices and descriptor types), the
capability flags, and whether native object creation succeeds. -/
structure d3d12_device_model where
  va_map : List vkd3d_unique_resource
  cbv_descriptor_type : Nat
  cbv_set_info_index : Nat
  uav_image_set_info_index : Nat
  srv_ssbo_set_info_index : Nat
  srv_texel_set_info_index : Nat
  use_ssbo_raw_buffer : Bool
  ssbo_offset_buffer : Bool
  typed_offset_buffer : Bool
  ssbo_alignment : Nat
  max_texel_buffer_elements : Nat
  rt_supported : Bool
  native_ok : Bool
deriving DecidableEq, Repr

structure D3D12_CONSTANT_BUFFER_VIEW_DESC where
  BufferLocation : Nat
  SizeInBytes : Nat
deriving DecidableEq, Repr

/-- resource.c lines 3604-3659: d3d12_desc_create_cbv.  A null desc pointer
or a misaligned SizeInBytes logs and returns without touching the slot; a
zero BufferLocation delegates to the null-descriptor template; otherwise the
address is resolved through the VA map, the range is clamped to the owning
buffer, the slot metadata is rewritten (cookie := resource cookie,
OFFSET_RANGE | NON_NULL) and exactly one vkUpdateDescriptorSets call is
issued.  (The source unconditionally dereferences the VA-map result; the
unresolvable-address arm is modelled as leaving the slot untouched and is
never exercised by the theorems.) -/
def d3d12_desc_create_cbv (device : d3d12_device_model)
    (heap : d3d12_descriptor_heap) (descriptor : d3d12_desc)
    (desc : Option D3D12_CONSTANT_BUFFER_VIEW_DESC) : descriptor_write_result :=
  match desc with
  | none => { desc := descriptor, heap := heap, native_update_calls := 0 }
  | some c =>
      if c.SizeInBytes % D3D12_CONSTANT_BUFFER_DATA_PLACEMENT_ALIGNMENT ≠ 0 then
        { desc := descriptor, heap := heap, native_update_calls := 0 }
      else if c.BufferLocation = 0 then
        d3d12_descriptor_heap_write_null_descriptor_template heap descriptor
          device.cbv_descriptor_type
      else
        match vkd3d_va_map_deref device.va_map c.BufferLocation with
        | none => { desc := descriptor, heap := heap, native_update_calls := 0 }
        | some r =>
            let offset := c.BufferLocation - r.va
            let range := min c.SizeInBytes (r.size - offset)
            { desc :=
                { metadata :=
                    { cookie := r.cookie,
                      set_info_mask := 1 <<< device.cbv_set_info_index,
                      flags := VKD3D_DESCRIPTOR_FLAG_OFFSET_RANGE |||
                        VKD3D_DESCRIPTOR_FLAG_NON_NULL,
                      current_null_type := descriptor.metadata.current_null_type },
                  info :=
                    { buffer_buffer := r.vk_buffer, buffer_offset := offset,
                      buffer_range := range, view := 0 },
                  heap_offset := descriptor.heap_offset },
              heap := heap,
              native_update_calls := 1 }

/-- Counterexample for C3 as stated: on a heap without mutable-descriptor
support, writing a null descriptor with placeholder subtype 7 to a slot that
is null with recorded subtype 0 (a different subtype) performs ZERO native
updates and does not record subtype 7 — the source coerces every placeholder
subtype to the dummy value 0 before the comparison, so the claimed
exactly-one-update behaviour fails. -/
theorem null_write_different_subtype_counterexample :
    (d3d12_descriptor_heap_write_null_descriptor_template
        { null_descriptor_template :=
            { has_mutable_descriptors := false, num_writes := 6, set_info_mask := 63 },
          raw_va_aux_buffer := some [5] }
        { metadata := { cookie := 0, set_info_mask := 63, flags := 0, current_null_type := 0 },
          info := vkd3d_descriptor_info_zero, heap_offset := 0 }
        7).native_update_calls = 0 ∧
    (d3d12_descriptor_heap_write_null_descriptor_template
        { null_descriptor_template :=
            { has_mutable_descriptors := false, num_writes := 6, set_info_mask := 63 },
          raw_va_aux_buffer := some [5] }
        { metadata := { cookie := 0, set_info_mask := 63, flags := 0, current_null_type := 0 },
          info := vkd3d_descriptor_info_zero, heap_offset := 0 }
        7).desc.metadata.current_null_type ≠ 7 ∧
    (7 : Nat) ≠ 0 := by
  decide

/-- C3 (amended): with mutable-descriptor support, writing a null descriptor
to an already-null slot (NON_NULL clear) with the same placeholder subtype
performs zero native updates; with a different placeholder subtype it
performs exactly one native update, resets the metadata (cookie 0, flags 0,
the heap's null-template set mask) and records the new subtype.  Without
mutable-descriptor support every placeholder subtype is first coerced to the
dummy value 0, so a null write to an already-null slot is always skipped. -/
theorem null_write_idempotent (heap : d3d12_descriptor_heap)
    (slot : d3d12_desc) (ty : Nat) :
    (heap.null_descriptor_template.has_mutable_descriptors = true →
      (slot.metadata.flags &&& VKD3D_DESCRIPTOR_FLAG_NON_NULL = 0 →
        slot.metadata.current_null_type = ty →
        d3d12_descriptor_heap_write_null_descriptor_template heap slot ty =
          { desc := slot, heap := heap, native_update_calls := 0 }) ∧
      (slot.metadata.flags &&& VKD3D_DESCRIPTOR_FLAG_NON_NULL = 0 →
        slot.metadata.current_null_type ≠ ty →
        (d3d12_descriptor_heap_write_null_descriptor_template heap slot ty).native_update_calls = 1 ∧
        (d3d12_descriptor_heap_write_null_descriptor_template heap slot ty).desc.metadata =
          { cookie := 0, set_info_mask := heap.null_descriptor_template.set_info_mask,
            flags := 0, current_null_type := ty })) ∧
    (heap.null_descriptor_template.has_mutable_descriptors = false →
      slot.metadata.flags &&& VKD3D_DESCRIPTOR_FLAG_NON_NULL = 0 →
      slot.metadata.current_null_type = 0 →
      d3d12_descriptor_heap_write_null_descriptor_template heap slot ty =
        { desc := slot, heap := heap, native_update_calls := 0 }) := by
  refine ⟨fun hm => ⟨?_, ?_⟩, ?_⟩
  · intro hnull hsame
    unfold d3d12_descriptor_heap_write_null_descriptor_template
    simp only [hm, if_true]
    rw [if_pos ⟨hnull, hsame⟩]
  · intro hnull hdiff
    unfold d3d12_descriptor_heap_write_null_descriptor_template
    simp only [hm, if_true]
    have hcond : ¬(slot.metadata.flags &&& VKD3D_DESCRIPTOR_FLAG_NON_NULL = 0 ∧
        slot.metadata.current_null_type = ty) := by
      intro h
      exact hdiff h.2
    rw [if_neg hcond]
    exact ⟨rfl, rfl⟩
  · intro hm hnull hzero
    unfold d3d12_descriptor_heap_write_null_descriptor_template
    simp only [hm]
    rw [if_pos]
    constructor
    · exact hnull
    · simpa using hzero

/-- Witness for the C3 theorem on a mutable-descriptor heap: a repeat null
write with subtype 6 on a slot already null with subtype 6 performs zero
updates, and a null write with subtype 3 on the same slot performs one update
and records subtype 3. -/
theorem null_write_idempotent_witness :
    (d3d12_descriptor_heap_write_null_descriptor_template
        { null_descriptor_template :=
            { has_mutable_descriptors := true, num_writes := 2, set_info_mask := 3 },
          raw_va_aux_buffer := some [5] }
        { metadata := { cookie := 0, set_info_mask := 3, flags := 0, current_null_type := 6 },
          info := vkd3d_descriptor_info_zero, heap_offset := 0 }
        6 =
      { desc := { metadata := { cookie := 0, set_info_mask := 3, flags := 0, current_null_type := 6 },
                  info := vkd3d_descriptor_info_zero, heap_offset := 0 },
        heap := { null_descriptor_template :=
                    { has_mutable_descriptors := true, num_writes := 2, set_info_mask := 3 },
                  raw_va_aux_buffer := some [5] },
        native_update_calls := 0 }) ∧
    ((d3d12_descriptor_heap_write_null_descriptor_template
        { null_descriptor_template :=
            { has_mutable_descriptors := true, num_writes := 2, set_info_mask := 3 },
          raw_va_aux_buffer := some [5] }
        { metadata := { cookie := 0, set_info_mask := 3, flags := 0, current_null_type := 6 },
          info := vkd3d_descriptor_info_zero, heap_offset := 0 }
        3).native_update_calls = 1 ∧
      (d3d12_descriptor_heap_write_null_descriptor_template
        { null_descriptor_template :=
            { has_mutable_descriptors := true, num_writes := 2, set_info_mask := 3 },
          raw_va_aux_buffer := some [5] }
        { metadata := { cookie := 0, set_info_mask := 3, flags := 0, current_null_type := 6 },
          info := vkd3d_descriptor_info_zero, heap_offset := 0 }
        3).desc.metadata =
        { cookie := 0, set_info_mask := 3, flags := 0, current_null_type := 3 }) :=
  ⟨(null_write_idempotent
      { null_descriptor_template :=
          { has_mutable_descriptors := true, num_writes := 2, set_info_mask := 3 },
        raw_va_aux_buffer := some [5] }
      { metadata := { cookie := 0, set_info_mask := 3, flags := 0, current_null_type := 6 },
        info := vkd3d_descriptor_info_zero, heap_offset := 0 }
      6).1 rfl |>.1 (by decide) (by decide),
   (null_write_idempotent
      { null_descriptor_template :=
          { has_mutable_descriptors := true, num_writes := 2, set_info_mask := 3 },
        raw_va_aux_buffer := some [5] }
      { metadata := { cookie := 0, set_info_mask := 3, flags := 0, current_null_type := 6 },
        info := vkd3d_descriptor_info_zero, heap_offset := 0 }
      3).1 rfl |>.2 (by decide) (by decide)⟩

/-- A device model used by the concrete CBV examples: one buffer resource of
65536 bytes at address 4096 with cookie 7. -/
def cbv_example_device : d3d12_device_model :=
  { va_map := [{ vk_buffer := 42, va := 4096, size := 65536, cookie := 7 }],
    cbv_descriptor_type := VK_DESCRIPTOR_TYPE_UNIFORM_BUFFER,
    cbv_set_info_index := 0,
    uav_image_set_info_index := 1,
    srv_ssbo_set_info_index := 2,
    srv_texel_set_info_index := 3,
    use_ssbo_raw_buffer := false,
    ssbo_offset_buffer := false,
    typed_offset_buffer := false,
    ssbo_alignment := 4,
    max_texel_buffer_elements := 65536,
    rt_supported := true,
    native_ok := true }

def cbv_example_heap : d3d12_descriptor_heap :=
  { null_descriptor_template :=
      { has_mutable_descriptors := true, num_writes := 2, set_info_mask := 3 },
    raw_va_aux_buffer := some [0] }

def cbv_example_null_slot : d3d12_desc :=
  { metadata := { cookie := 0, set_info_mask := 3, flags := 0, current_null_type := 0 },
    info := vkd3d_descriptor_info_zero, heap_offset := 0 }

/-- Counterexample for C4 as stated: binding a CBV at address 4096 with size
256, then rebinding the identical location that resolves to the identical
resource (the slot cookie already equals the resource cookie 7), issues ONE
more native descriptor write, not zero — d3d12_desc_create_cbv has no
cookie-match short-circuit; it unconditionally rewrites the metadata and
calls vkUpdateDescriptorSets. -/
theorem create_cbv_rebind_counterexample :
    ((d3d12_desc_create_cbv cbv_example_device cbv_example_heap
        cbv_example_null_slot (some { BufferLocation := 4096, SizeInBytes := 256 })).desc.metadata.cookie = 7 ∧
      (d3d12_desc_create_cbv cbv_example_device cbv_example_heap
        (d3d12_desc_create_cbv cbv_example_device cbv_example_heap
          cbv_example_null_slot (some { BufferLocation := 4096, SizeInBytes := 256 })).desc
        (some { BufferLocation := 4096, SizeInBytes := 256 })).native_update_calls = 1) ∧
    ¬((d3d12_desc_create_cbv cbv_example_device cbv_example_heap
        (d3d12_desc_create_cbv cbv_example_device cbv_example_heap
          cbv_example_null_slot (some { BufferLocation := 4096, SizeInBytes := 256 })).desc
        (some { BufferLocation := 4096, SizeInBytes := 256 })).native_update_calls = 0) := by
  decide

/-- C4 (amended): every create_cbv with a non-null location that resolves
through the VA map and passes the 256-byte size alignment check issues
exactly one native descriptor write and rewrites the slot metadata (cookie :=
the resolved resource's cookie, OFFSET_RANGE and NON_NULL flags, clamped
range), regardless of what the slot previously held — there is no cookie-match
short-circuit in d3d12_desc_create_cbv. -/
theorem create_cbv_always_writes (device : d3d12_device_model)
    (heap : d3d12_descriptor_heap) (slot : d3d12_desc)
    (c : D3D12_CONSTANT_BUFFER_VIEW_DESC) (r : vkd3d_unique_resource)
    (hsz : c.SizeInBytes % D3D12_CONSTANT_BUFFER_DATA_PLACEMENT_ALIGNMENT = 0)
    (hloc : c.BufferLocation ≠ 0)
    (hderef : vkd3d_va_map_deref device.va_map c.BufferLocation = some r) :
    d3d12_desc_create_cbv device heap slot (some c) =
      { desc :=
          { metadata :=
              { cookie := r.cookie,
                set_info_mask := 1 <<< device.cbv_set_info_index,
                flags := VKD3D_DESCRIPTOR_FLAG_OFFSET_RANGE |||
                  VKD3D_DESCRIPTOR_FLAG_NON_NULL,
                current_null_type := slot.metadata.current_null_type },
            info :=
              { buffer_buffer := r.vk_buffer,
                buffer_offset := c.BufferLocation - r.va,
                buffer_range := min c.SizeInBytes (r.size - (c.BufferLocation - r.va)),
                view := 0 },
            heap_offset := slot.heap_offset },
        heap := heap,
        native_update_calls := 1 } := by
  unfold d3d12_desc_create_cbv
  have hsz2 : ¬(c.SizeInBytes % D3D12_CONSTANT_BUFFER_DATA_PLACEMENT_ALIGNMENT ≠ 0) := by
    omega
  simp only [hsz2, if_false, if_neg hloc, hderef]

/-- Witness for the C4 theorem: the concrete rebind of the counterexample
scenario, evaluated through the theorem. -/
theorem create_cbv_always_writes_witness :
    d3d12_desc_create_cbv cbv_example_device cbv_example_heap
      (d3d12_desc_create_cbv cbv_example_device cbv_example_heap
        cbv_example_null_slot (some { BufferLocation := 4096, SizeInBytes := 256 })).desc
      (some { BufferLocation := 4096, SizeInBytes := 256 }) =
      { desc :=
          { metadata :=
              { cookie := 7, set_info_mask := 1,
                flags := VKD3D_DESCRIPTOR_FLAG_OFFSET_RANGE |||
                  VKD3D_DESCRIPTOR_FLAG_NON_NULL,
                current_null_type := 0 },
            info := { buffer_buffer := 42, buffer_offset := 0,
                      buffer_range := 256, view := 0 },
            heap_offset := 0 },
        heap := cbv_example_heap,
        native_update_calls := 1 } := by
  have h := create_cbv_always_writes cbv_example_device cbv_example_heap
    (d3d12_desc_create_cbv cbv_example_device cbv_example_heap
      cbv_example_null_slot (some { BufferLocation := 4096, SizeInBytes := 256 })).desc
    { BufferLocation := 4096, SizeInBytes := 256 }
    { vk_buffer := 42, va := 4096, size := 65536, cookie := 7 }
    (by decide) (by decide) (by decide)
  rw [h]
  decide

/-! ## Texture UAV creation (resource.c lines 3403-3451 and 4287-4383) -/

def VK_IMAGE_VIEW_TYPE_1D : Nat := 0

def VK_IMAGE_VIEW_TYPE_2D : Nat := 1

def VK_IMAGE_VIEW_TYPE_3D : Nat := 2

def VK_IMAGE_VIEW_TYPE_1D_ARRAY : Nat := 4

def VK_IMAGE_VIEW_TYPE_2D_ARRAY : Nat := 5

def D3D12_RESOURCE_DIMENSION_TEXTURE1D : Nat := 2

def D3D12_RESOURCE_DIMENSION_TEXTURE2D : Nat := 3

def D3D12_RESOURCE_DIMENSION_TEXTURE3D : Nat := 4

/-- The format-descriptor fields the UAV path reads (format table
collaborator): an identifier standing for the struct vkd3d_format pointer and
the compressed-format predicate vkd3d_format_is_compressed. -/
structure vkd3d_format_model where
  format_id : Nat
  compressed : Bool
deriving DecidableEq, Repr

/-- The texture-resource fields the UAV path reads, together with the
resource's view map. -/
structure d3d12_texture_resource where
  vk_image : Nat
  dimension : Nat
  depth_or_array_size : Nat
  mip_levels : Nat
  format : Option vkd3d_format_model
  cookie : Nat
  view_map : vkd3d_view_map
deriving DecidableEq, Repr

/-- resource.c lines 3403-3451: init_default_texture_view_desc.  Fails when
the format does not resolve or the dimension is not a texture dimension;
otherwise fills the default sub-range (mip 0, one level, all layers, identity
swizzle; one layer for 3D textures). -/
def init_default_texture_view_desc (resource : d3d12_texture_resource) :
    Option (vkd3d_texture_view_key × vkd3d_format_model) :=
  match resource.format with
  | none => none
  | some f =>
      let base : vkd3d_texture_view_key :=
        { image := resource.vk_image, view_type := VK_IMAGE_VIEW_TYPE_2D,
          format := f.format_id, miplevel_idx := 0, miplevel_count := 1,
          miplevel_clamp := 0, layer_idx := 0,
          layer_count := resource.depth_or_array_size,
          components_r := 0, components_g := 0, components_b := 0,
          components_a := 0, allowed_swizzle := false }
      if resource.dimension = D3D12_RESOURCE_DIMENSION_TEXTURE1D then
        some ({ base with
          view_type := if resource.depth_or_array_size > 1 then
            VK_IMAGE_VIEW_TYPE_1D_ARRAY else VK_IMAGE_VIEW_TYPE_1D }, f)
      else if resource.dimension = D3D12_RESOURCE_DIMENSION_TEXTURE2D then
        some ({ base with
          view_type := if resource.depth_or_array_size > 1 then
            VK_IMAGE_VIEW_TYPE_2D_ARRAY else VK_IMAGE_VIEW_TYPE_2D }, f)
      else if resource.dimension = D3D12_RESOURCE_DIMENSION_TEXTURE3D then
        some ({ base with view_type := VK_IMAGE_VIEW_TYPE_3D, layer_count := 1 }, f)
      else none

def D3D12_UAV_DIMENSION_TEXTURE1D : Nat := 2

def D3D12_UAV_DIMENSION_TEXTURE1DARRAY : Nat := 3

def D3D12_UAV_DIMENSION_TEXTURE2D : Nat := 4

def D3D12_UAV_DIMENSION_TEXTURE2DARRAY : Nat := 5

def D3D12_UAV_DIMENSION_TEXTURE3D : Nat := 8

/-- The texture-UAV description fields the source reads (one record covering
the per-dimension unions).  The plane-select aspect only affects the
descriptor's aspect mask, which is not part of the view key, so it is not
carried here. -/
structure D3D12_TEX_UAV_DESC where
  ViewDimension : Nat
  MipSlice : Nat
  FirstArraySlice : Nat
  ArraySize : Nat
deriving DecidableEq, Repr

/-- resource.c lines 4315-4357: the per-dimension view-key adjustments of
vkd3d_create_texture_uav (the unhandled-dimension default only logs and keeps
the default key). -/
def texture_uav_apply_desc (key : vkd3d_texture_view_key)
    (d : D3D12_TEX_UAV_DESC) : vkd3d_texture_view_key :=
  if d.ViewDimension = D3D12_UAV_DIMENSION_TEXTURE1D then
    { key with view_type := VK_IMAGE_VIEW_TYPE_1D,
               miplevel_idx := d.MipSlice, layer_count := 1 }
  else if d.ViewDimension = D3D12_UAV_DIMENSION_TEXTURE1DARRAY then
    { key with view_type := VK_IMAGE_VIEW_TYPE_1D_ARRAY,
               miplevel_idx := d.MipSlice, layer_idx := d.FirstArraySlice,
               layer_count := d.ArraySize }
  else if d.ViewDimension = D3D12_UAV_DIMENSION_TEXTURE2D then
    { key with view_type := VK_IMAGE_VIEW_TYPE_2D,
               miplevel_idx := d.MipSlice, layer_count := 1 }
  else if d.ViewDimension = D3D12_UAV_DIMENSION_TEXTURE2DARRAY then
    { key with view_type := VK_IMAGE_VIEW_TYPE_2D_ARRAY,
               miplevel_idx := d.MipSlice, layer_idx := d.FirstArraySlice,
               layer_count := d.ArraySize }
  else if d.ViewDimension = D3D12_UAV_DIMENSION_TEXTURE3D then
    { key with view_type := VK_IMAGE_VIEW_TYPE_3D, miplevel_idx := d.MipSlice }
  else key

/-- The result of a texture-UAV create: the slot, the heap, the resource's
updated view map (when a resource was given) and the number of
vkUpdateDescriptorSets calls. -/
structure texture_uav_result where
  desc : d3d12_desc
  heap : d3d12_descriptor_heap
  view_map : Option vkd3d_view_map
  native_update_calls : Nat
deriving DecidableEq, Repr

/-- resource.c lines 4287-4383: vkd3d_create_texture_uav.  A null resource
writes the null template with the STORAGE_IMAGE placeholder; a format that
fails to resolve or an unsupported dimension returns with nothing written;
a compressed format returns with nothing written; a failed native view
creation returns with nothing written; otherwise the view comes from the
resource's view cache and exactly one vkUpdateDescriptorSets call is
issued with cookie := view cookie and VIEW | NON_NULL flags. -/
def vkd3d_create_texture_uav (device : d3d12_device_model)
    (heap : d3d12_descriptor_heap) (descriptor : d3d12_desc)
    (resource : Option d3d12_texture_resource)
    (desc : Option D3D12_TEX_UAV_DESC) : texture_uav_result :=
  match resource with
  | none =>
      let r := d3d12_descriptor_heap_write_null_descriptor_template heap
        descriptor VK_DESCRIPTOR_TYPE_STORAGE_IMAGE
      { desc := r.desc, heap := r.heap, view_map := none,
        native_update_calls := r.native_update_calls }
  | some res =>
      match init_default_texture_view_desc res with
      | none =>
          { desc := descriptor, heap := heap, view_map := some res.view_map,
            native_update_calls := 0 }
      | some (key0, fmt) =>
          if fmt.compressed then
            { desc := descriptor, heap := heap, view_map := some res.view_map,
              native_update_calls := 0 }
          else
            let key := match desc with
              | none => key0
              | some d => texture_uav_apply_desc key0 d
            let r := vkd3d_view_map_create_view device.native_ok res.view_map
              (vkd3d_view_key.image key)
            match r.1 with
            | none =>
                { desc := descriptor, heap := heap, view_map := some r.2,
                  native_update_calls := 0 }
            | some view_cookie =>
                { desc :=
                    { metadata :=
                        { cookie := view_cookie,
                          set_info_mask := 1 <<< device.uav_image_set_info_index,
                          flags := VKD3D_DESCRIPTOR_FLAG_VIEW |||
                            VKD3D_DESCRIPTOR_FLAG_NON_NULL,
                          current_null_type := descriptor.metadata.current_null_type },
                      info := { buffer_buffer := 0, buffer_offset := 0,
                                buffer_range := 0, view := view_cookie },
                      heap_offset := descriptor.heap_offset },
                  heap := heap, view_map := some r.2,
                  native_update_calls := 1 }

/-! ## Buffer SRV creation (resource.c lines 3661-3924) -/

def D3D12_SRV_DIMENSION_BUFFER : Nat := 1

def D3D12_SRV_DIMENSION_RAYTRACING_ACCELERATION_STRUCTURE : Nat := 11

def D3D12_BUFFER_SRV_FLAG_RAW : Nat := 1

def VKD3D_VIEW_RAW_BUFFER : Nat := 1

def DXGI_FORMAT_R32_TYPELESS : Nat := 39

def DXGI_FORMAT_R32_UINT : Nat := 42

/-- Modelled from the spec: byte size of a typed format (format table
collaborator, not under src/); every typed format exercised in this
development is a 4-byte format. -/
def dxgi_format_byte_count (_format : Nat) : Nat := 4

/-- The buffer-resource fields the SRV path reads, plus the resource's view
map. -/
structure d3d12_buffer_resource where
  vk_buffer : Nat
  width : Nat
  mem_offset : Nat
  cookie : Nat
  view_map : vkd3d_view_map
deriving DecidableEq, Repr

/-- struct vkd3d_bound_buffer_range: the offset/range side-table entry. -/
structure vkd3d_bound_buffer_range where
  byte_offset : Nat
  byte_count : Nat
  element_offset : Nat
  element_count : Nat
deriving DecidableEq, Repr

def vkd3d_bound_buffer_range_zero : vkd3d_bound_buffer_range :=
  { byte_offset := 0, byte_count := 0, element_offset := 0, element_count := 0 }

structure D3D12_BUFFER_SRV where
  FirstElement : Nat
  NumElements : Nat
  StructureByteStride : Nat
  Flags : Nat
deriving DecidableEq, Repr

structure D3D12_SHADER_RESOURCE_VIEW_DESC_model where
  ViewDimension : Nat
  Format : Nat
  rtas_location : Nat
  Buffer : D3D12_BUFFER_SRV
deriving DecidableEq, Repr

/-- resource.c lines 3661-3668: map D3D12 buffer SRV flags to view flags. -/
def vkd3d_view_flags_from_d3d12_buffer_srv_flags (flags : Nat) : Nat :=
  if flags = D3D12_BUFFER_SRV_FLAG_RAW then VKD3D_VIEW_RAW_BUFFER else 0

/-- resource.c lines 3670-3698 (non-null resource arm): clamp and align the
requested byte range to the SSBO alignment, producing the native buffer
descriptor info and the fine byte offset/count for the side table.  The
bitmask alignment arithmetic of the source coincides with this division form
for the power-of-two SSBO alignments. -/
def vkd3d_buffer_view_get_bound_range_ssbo (device : d3d12_device_model)
    (resource : d3d12_buffer_resource) (offset range : Nat) :
    (Nat × Nat × Nat) × (Nat × Nat) :=
  let alignment := device.ssbo_alignment
  let aligned_begin := (offset / alignment) * alignment
  let aligned_end := min (align (offset + range) alignment) resource.width
  ((resource.vk_buffer, resource.mem_offset + aligned_begin,
      aligned_end - aligned_begin),
    (offset - aligned_begin, range))

/-- resource.c lines 3224-3262: vkd3d_create_buffer_view_for_resource builds
the deduplicated buffer view key (raw R32 views for R32_TYPELESS raw access,
R32 element views for structured buffers, the typed format otherwise; an
unresolvable format fails) and obtains the view from the resource's view
cache. -/
def vkd3d_create_buffer_view_for_resource (device : d3d12_device_model)
    (resource : d3d12_buffer_resource) (view_format : Nat)
    (offset size structure_stride vk_flags : Nat) :
    Option Nat × vkd3d_view_map :=
  let fmtinfo : Option (Nat × Nat) :=
    if view_format = DXGI_FORMAT_R32_TYPELESS ∧
        vk_flags &&& VKD3D_VIEW_RAW_BUFFER ≠ 0 then
      some (DXGI_FORMAT_R32_UINT, dxgi_format_byte_count DXGI_FORMAT_R32_UINT)
    else if view_format = 0 ∧ structure_stride ≠ 0 then
      some (DXGI_FORMAT_R32_UINT, structure_stride)
    else if view_format ≠ 0 then
      some (view_format, dxgi_format_byte_count view_format)
    else none
  match fmtinfo with
  | none => (none, resource.view_map)
  | some (fmt, element_size) =>
      vkd3d_view_map_create_view device.native_ok resource.view_map
        (vkd3d_view_key.buffer
          { buffer := resource.vk_buffer, format := fmt,
            offset := resource.mem_offset + offset * element_size,
            size := size * element_size })

/-- resource.c lines 3700-3780: vkd3d_buffer_view_get_aligned_view.  With the
typed offset buffer active, the element range is quantized (structured
buffers are first rescaled to 32-bit words) so that nearby ranges collapse
onto a bounded set of cached views, the residual fine offset going to the
side table; the view itself is then created through
vkd3d_create_buffer_view_for_resource. -/
def vkd3d_buffer_view_get_aligned_view (device : d3d12_device_model)
    (resource : d3d12_buffer_resource) (format vk_flags : Nat)
    (first_element num_elements structured_stride : Nat)
    (bound0 : vkd3d_bound_buffer_range) :
    (Option Nat × vkd3d_view_map) × vkd3d_bound_buffer_range :=
  if device.typed_offset_buffer then
    let max_elements := device.max_texel_buffer_elements
    let q : Nat × Nat × Nat × Nat :=
      if format ≠ 0 then
        (first_element, num_elements, structured_stride,
          resource.width / dxgi_format_byte_count format)
      else
        (first_element * structured_stride / 4,
          num_elements * structured_stride / 4, 4, resource.width / 4)
    let fe := q.1
    let ne := q.2.1
    let ss := q.2.2.1
    let max_resource_elements := q.2.2.2
    if max_elements < ne then
      (vkd3d_create_buffer_view_for_resource device resource format fe ne ss vk_flags,
        { bound0 with element_offset := 0, element_count := ne })
    else if max_resource_elements ≤ ne then
      (vkd3d_create_buffer_view_for_resource device resource format fe ne ss vk_flags,
        { bound0 with element_offset := 0, element_count := ne })
    else
      let max_element_headroom := max_elements - ne + 1
      let element_align := 2 ^ Nat.log2 max_element_headroom
      let begin_range := (fe / element_align) * element_align
      let end_range := min (align (fe + ne) element_align) max_resource_elements
      (vkd3d_create_buffer_view_for_resource device resource format begin_range
          (end_range - begin_range) ss vk_flags,
        { bound0 with element_offset := fe - begin_range, element_count := ne })
  else
    (vkd3d_create_buffer_view_for_resource device resource format first_element
        num_elements structured_stride vk_flags,
      bound0)

structure buffer_srv_result where
  desc : d3d12_desc
  heap : d3d12_descriptor_heap
  view_map : Option vkd3d_view_map
  stored_buffer_range : Option vkd3d_bound_buffer_range
  native_update_calls : Nat
deriving DecidableEq, Repr

/-- resource.c lines 3782-3924: vkd3d_create_buffer_srv.  The
raytracing-acceleration-structure arm writes a bare device address into the
raw VA side buffer with cookie 0 and the RAW_VA | NON_NULL flags (no
vkUpdateDescriptorSets call); a null location there replays the null template
with a SAMPLED_IMAGE placeholder; a view dimension that is neither BUFFER nor
the acceleration structure returns with nothing written; a null resource
replays the null template with UNIFORM_TEXEL_BUFFER; otherwise the slot is
rewritten through the optional SSBO write and the texel-buffer view from the
view cache, all native writes issued in one vkUpdateDescriptorSets call;
a failed view resolve returns before that call is made. -/
def vkd3d_create_buffer_srv (device : d3d12_device_model)
    (heap : d3d12_descriptor_heap) (descriptor : d3d12_desc)
    (resource : Option d3d12_buffer_resource)
    (desc : Option D3D12_SHADER_RESOURCE_VIEW_DESC_model) : buffer_srv_result :=
  match desc with
  | none =>
      { desc := descriptor, heap := heap, view_map := none,
        stored_buffer_range := none, native_update_calls := 0 }
  | some d =>
      if d.ViewDimension = D3D12_SRV_DIMENSION_RAYTRACING_ACCELERATION_STRUCTURE then
        if d.rtas_location = 0 then
          let r := d3d12_descriptor_heap_write_null_descriptor_template heap
            descriptor VK_DESCRIPTOR_TYPE_SAMPLED_IMAGE
          { desc := r.desc, heap := r.heap, view_map := none,
            stored_buffer_range := none, native_update_calls := r.native_update_calls }
        else if device.rt_supported then
          { desc :=
              { descriptor with metadata :=
                  { cookie := 0, set_info_mask := 0,
                    flags := VKD3D_DESCRIPTOR_FLAG_RAW_VA_AUX_BUFFER |||
                      VKD3D_DESCRIPTOR_FLAG_NON_NULL,
                    current_null_type := descriptor.metadata.current_null_type } },
            heap := raw_va_aux_buffer_store heap descriptor.heap_offset d.rtas_location,
            view_map := none, stored_buffer_range := none,
            native_update_calls := 0 }
        else
          { desc := descriptor, heap := heap, view_map := none,
            stored_buffer_range := none, native_update_calls := 0 }
      else if d.ViewDimension ≠ D3D12_SRV_DIMENSION_BUFFER then
        { desc := descriptor, heap := heap, view_map := none,
          stored_buffer_range := none, native_update_calls := 0 }
      else
        match resource with
        | none =>
            let r := d3d12_descriptor_heap_write_null_descriptor_template heap
              descriptor VK_DESCRIPTOR_TYPE_UNIFORM_TEXEL_BUFFER
            { desc := r.desc, heap := r.heap, view_map := none,
              stored_buffer_range := none, native_update_calls := r.native_update_calls }
        | some res =>
            let slot1 : d3d12_desc :=
              { descriptor with metadata :=
                  { descriptor.metadata with set_info_mask := 0, flags := 0 } }
            let ssbo :=
              if device.use_ssbo_raw_buffer then
                let stride := if d.Format = 0 then d.Buffer.StructureByteStride
                  else dxgi_format_byte_count d.Format
                let br := vkd3d_buffer_view_get_bound_range_ssbo device res
                  (d.Buffer.FirstElement * stride) (d.Buffer.NumElements * stride)
                let slot2 : d3d12_desc :=
                  { slot1 with
                      metadata :=
                        { slot1.metadata with
                            cookie := res.cookie,
                            set_info_mask := slot1.metadata.set_info_mask |||
                              (1 <<< device.srv_ssbo_set_info_index),
                            flags := slot1.metadata.flags |||
                              VKD3D_DESCRIPTOR_FLAG_OFFSET_RANGE |||
                              VKD3D_DESCRIPTOR_FLAG_NON_NULL |||
                              (if device.ssbo_offset_buffer then
                                VKD3D_DESCRIPTOR_FLAG_BUFFER_OFFSET else 0) },
                      info :=
                        { slot1.info with
                            buffer_buffer := br.1.1,
                            buffer_offset := br.1.2.1,
                            buffer_range := br.1.2.2 } }
                (slot2, { vkd3d_bound_buffer_range_zero with
                            byte_offset := br.2.1, byte_count := br.2.2 }, 1)
              else (slot1, vkd3d_bound_buffer_range_zero, 0)
            let vk_flags := vkd3d_view_flags_from_d3d12_buffer_srv_flags d.Buffer.Flags
            let av := vkd3d_buffer_view_get_aligned_view device res d.Format vk_flags
              d.Buffer.FirstElement d.Buffer.NumElements d.Buffer.StructureByteStride
              ssbo.2.1
            match av.1.1 with
            | none =>
                { desc := ssbo.1, heap := heap, view_map := some av.1.2,
                  stored_buffer_range := none, native_update_calls := 0 }
            | some view_cookie =>
                let slot3 : d3d12_desc :=
                  { ssbo.1 with
                      metadata :=
                        { ssbo.1.metadata with
                            cookie := view_cookie,
                            set_info_mask := ssbo.1.metadata.set_info_mask |||
                              (1 <<< device.srv_texel_set_info_index),
                            flags := ssbo.1.metadata.flags |||
                              VKD3D_DESCRIPTOR_FLAG_VIEW |||
                              VKD3D_DESCRIPTOR_FLAG_NON_NULL |||
                              (if device.typed_offset_buffer then
                                VKD3D_DESCRIPTOR_FLAG_BUFFER_OFFSET else 0) },
                      info := { ssbo.1.info with view := view_cookie } }
                { desc := slot3, heap := heap, view_map := some av.1.2,
                  stored_buffer_range :=
                    if slot3.metadata.flags &&& VKD3D_DESCRIPTOR_FLAG_BUFFER_OFFSET ≠ 0 then
                      some av.2
                    else none,
                  native_update_calls := 1 }

/-- Counterexample for C5 as stated: a CBV create with a misaligned
SizeInBytes (100 bytes) on a slot that currently holds a valid binding
performs no native write but leaves the slot in its previous BOUND state
(NON_NULL still set, cookie still 7) — not in the null state the claim
demands. -/
theorem failed_create_slot_not_null_counterexample :
    (d3d12_desc_create_cbv cbv_example_device cbv_example_heap
        { metadata := { cookie := 7, set_info_mask := 1,
                        flags := VKD3D_DESCRIPTOR_FLAG_OFFSET_RANGE |||
                          VKD3D_DESCRIPTOR_FLAG_NON_NULL,
                        current_null_type := 0 },
          info := { buffer_buffer := 42, buffer_offset := 0,
                    buffer_range := 256, view := 0 },
          heap_offset := 0 }
        (some { BufferLocation := 4096, SizeInBytes := 100 })).native_update_calls = 0 ∧
    (d3d12_desc_create_cbv cbv_example_device cbv_example_heap
        { metadata := { cookie := 7, set_info_mask := 1,
                        flags := VKD3D_DESCRIPTOR_FLAG_OFFSET_RANGE |||
                          VKD3D_DESCRIPTOR_FLAG_NON_NULL,
                        current_null_type := 0 },
          info := { buffer_buffer := 42, buffer_offset := 0,
                    buffer_range := 256, view := 0 },
          heap_offset := 0 }
        (some { BufferLocation := 4096, SizeInBytes := 100 })).desc.metadata.cookie = 7 ∧
    ¬((d3d12_desc_create_cbv cbv_example_device cbv_example_heap
        { metadata := { cookie := 7, set_info_mask := 1,
                        flags := VKD3D_DESCRIPTOR_FLAG_OFFSET_RANGE |||
                          VKD3D_DESCRIPTOR_FLAG_NON_NULL,
                        current_null_type := 0 },
          info := { buffer_buffer := 42, buffer_offset := 0,
                    buffer_range := 256, view := 0 },
          heap_offset := 0 }
        (some { BufferLocation := 4096, SizeInBytes := 100 })).desc.metadata.flags &&&
      VKD3D_DESCRIPTOR_FLAG_NON_NULL = 0) := by
  decide

/-- C5 (amended): a descriptor-create operation that fails argument
validation or view resolution (a misaligned CBV size, a texture UAV whose
format does not resolve or is compressed, a buffer SRV with an unexpected
view dimension) performs zero native descriptor writes and leaves the target
slot exactly as it was — previously bound slots stay bound and null slots
stay null. -/
theorem failed_descriptor_create_unchanged (device : d3d12_device_model)
    (heap : d3d12_descriptor_heap) (slot : d3d12_desc) :
    (∀ c : D3D12_CONSTANT_BUFFER_VIEW_DESC,
      c.SizeInBytes % D3D12_CONSTANT_BUFFER_DATA_PLACEMENT_ALIGNMENT ≠ 0 →
      d3d12_desc_create_cbv device heap slot (some c) =
        { desc := slot, heap := heap, native_update_calls := 0 }) ∧
    (∀ (res : d3d12_texture_resource) (d : Option D3D12_TEX_UAV_DESC),
      init_default_texture_view_desc res = none →
      vkd3d_create_texture_uav device heap slot (some res) d =
        { desc := slot, heap := heap, view_map := some res.view_map,
          native_update_calls := 0 }) ∧
    (∀ (res : d3d12_texture_resource) (d : Option D3D12_TEX_UAV_DESC)
        (key : vkd3d_texture_view_key) (fmt : vkd3d_format_model),
      init_default_texture_view_desc res = some (key, fmt) →
      fmt.compressed = true →
      vkd3d_create_texture_uav device heap slot (some res) d =
        { desc := slot, heap := heap, view_map := some res.view_map,
          native_update_calls := 0 }) ∧
    (∀ (res : Option d3d12_buffer_resource)
        (d : D3D12_SHADER_RESOURCE_VIEW_DESC_model),
      d.ViewDimension ≠ D3D12_SRV_DIMENSION_BUFFER →
      d.ViewDimension ≠ D3D12_SRV_DIMENSION_RAYTRACING_ACCELERATION_STRUCTURE →
      vkd3d_create_buffer_srv device heap slot res (some d) =
        { desc := slot, heap := heap, view_map := none,
          stored_buffer_range := none, native_update_calls := 0 }) := by
  refine ⟨?_, ?_, ?_, ?_⟩
  · intro c hc
    unfold d3d12_desc_create_cbv
    simp only [if_pos hc]
  · intro res d hinit
    unfold vkd3d_create_texture_uav
    simp only [hinit]
  · intro res d key fmt hinit hcomp
    unfold vkd3d_create_texture_uav
    simp only [hinit, hcomp, if_true]
  · intro res d hbuf hrtas
    unfold vkd3d_create_buffer_srv
    simp only [if_neg hrtas, if_pos hbuf]

/-- Witness for the C5 theorem: the misaligned CBV arm and the
compressed-format texture UAV arm, each at concrete inputs, leave the null
slot untouched with zero native writes. -/
theorem failed_descriptor_create_unchanged_witness :
    (d3d12_desc_create_cbv cbv_example_device cbv_example_heap
        cbv_example_null_slot (some { BufferLocation := 4096, SizeInBytes := 100 }) =
      { desc := cbv_example_null_slot, heap := cbv_example_heap,
        native_update_calls := 0 }) ∧
    (vkd3d_create_texture_uav cbv_example_device cbv_example_heap
        cbv_example_null_slot
        (some { vk_image := 9, dimension := 3, depth_or_array_size := 1,
                mip_levels := 1, format := some { format_id := 70, compressed := true },
                cookie := 8, view_map := ⟨[], [], 1⟩ })
        none =
      { desc := cbv_example_null_slot, heap := cbv_example_heap,
        view_map := some ⟨[], [], 1⟩, native_update_calls := 0 }) :=
  ⟨(failed_descriptor_create_unchanged cbv_example_device cbv_example_heap
      cbv_example_null_slot).1 { BufferLocation := 4096, SizeInBytes := 100 } (by decide),
   (failed_descriptor_create_unchanged cbv_example_device cbv_example_heap
      cbv_example_null_slot).2.2.1
      { vk_image := 9, dimension := 3, depth_or_array_size := 1,
        mip_levels := 1, format := some { format_id := 70, compressed := true },
        cookie := 8, view_map := ⟨[], [], 1⟩ }
      none
      { image := 9, view_type := VK_IMAGE_VIEW_TYPE_2D, format := 70,
        miplevel_idx := 0, miplevel_count := 1, miplevel_clamp := 0,
        layer_idx := 0, layer_count := 1, components_r := 0, components_g := 0,
        components_b := 0, components_a := 0, allowed_swizzle := false }
      { format_id := 70, compressed := true }
      (by decide) rfl⟩

/-! ## Cookie discipline (resource.c lines 32-37, 2455, 3581-3584) -/

/-- resource.c line 2455: d3d12_resource_create assigns the new resource's
cookie from vkd3d_allocate_cookie. -/
def d3d12_resource_create_cookie (counter : Nat) : Nat × Nat :=
  vkd3d_allocate_cookie counter

/-- A slot with metadata cookie 0 is either null (NON_NULL clear) or a naked
raw-address binding (RAW_VA_AUX_BUFFER set). -/
def slot_cookie_discipline (slot : d3d12_desc) : Prop :=
  slot.metadata.cookie = 0 →
    (slot.metadata.flags &&& VKD3D_DESCRIPTOR_FLAG_NON_NULL = 0 ∨
      slot.metadata.flags &&& VKD3D_DESCRIPTOR_FLAG_RAW_VA_AUX_BUFFER ≠ 0)

instance (slot : d3d12_desc) : Decidable (slot_cookie_discipline slot) := by
  unfold slot_cookie_discipline
  infer_instance

/-- All cookies stored in or to be issued by a view map are positive. -/
def view_map_cookies_pos (m : vkd3d_view_map) : Prop :=
  0 < m.next_cookie ∧ ∀ e ∈ m.entries, 0 < e.2

lemma hash_map_find_mem (entries : List (vkd3d_view_key × Nat))
    (k : vkd3d_view_key) (w : Nat) (h : hash_map_find entries k = some w) :
    ∃ e ∈ entries, e.2 = w := by
  unfold hash_map_find at h
  cases hf : entries.find? (fun e => vkd3d_view_entry_compare k e.1) with
  | none => rw [hf] at h; cases h
  | some e =>
      rw [hf] at h
      simp only [Option.map_some'] at h
      exact ⟨e, List.mem_of_find?_eq_some hf, by injection h⟩

lemma view_map_create_view_pos (ok : Bool) (m : vkd3d_view_map)
    (k : vkd3d_view_key) (hm : view_map_cookies_pos m) (v : Nat)
    (h : (vkd3d_view_map_create_view ok m k).1 = some v) : 0 < v := by
  unfold vkd3d_view_map_create_view view_map_try_find at h
  cases hf : hash_map_find m.entries k with
  | some w =>
      rw [hf] at h
      simp only [Option.some.injEq] at h
      obtain ⟨e, hmem, hew⟩ := hash_map_find_mem m.entries k w hf
      have := hm.2 e hmem
      omega
  | none =>
      rw [hf] at h
      cases ok with
      | false => simp at h
      | true =>
          simp only [view_map_create_native, view_map_publish, hf,
            Option.some.injEq] at h
          have := hm.1
          omega

lemma null_write_discipline (heap : d3d12_descriptor_heap) (slot : d3d12_desc)
    (ty : Nat) :
    slot_cookie_discipline
      (d3d12_descriptor_heap_write_null_descriptor_template heap slot ty).desc := by
  unfold d3d12_descriptor_heap_write_null_descriptor_template
  by_cases hc : slot.metadata.flags &&& VKD3D_DESCRIPTOR_FLAG_NON_NULL = 0 ∧
      slot.metadata.current_null_type =
        (if heap.null_descriptor_template.has_mutable_descriptors then ty else 0)
  · simp only [if_pos hc]
    intro _
    exact Or.inl hc.1
  · simp only [if_neg hc]
    intro _
    left
    simp [VKD3D_DESCRIPTOR_FLAG_NON_NULL]

lemma vkd3d_va_map_deref_mem (m : List vkd3d_unique_resource) (addr : Nat)
    (r : vkd3d_unique_resource) (h : vkd3d_va_map_deref m addr = some r) :
    r ∈ m :=
  List.mem_of_find?_eq_some h

/-- C10: vkd3d_allocate_cookie returns strictly increasing values starting at
1 and never returns 0; resources created through the factory path get such a
non-zero cookie; and across the descriptor-write operations a slot metadata
cookie of 0 arises only for null slots or naked raw-address bindings, never
for a slot bound to a cached resource or view (assuming, as the allocator
guarantees, that all resource and view cookies are positive). -/
theorem cookie_zero_unambiguous :
    (∀ m n : Nat, m < n → cookie_at m < cookie_at n) ∧
    (∀ n : Nat, cookie_at n ≠ 0) ∧
    (∀ c : Nat, vkd3d_allocate_cookie c = (c + 1, c + 1) ∧
      (d3d12_resource_create_cookie c).2 ≠ 0) ∧
    (∀ (heap : d3d12_descriptor_heap) (slot : d3d12_desc) (ty : Nat),
      slot_cookie_discipline
        (d3d12_descriptor_heap_write_null_descriptor_template heap slot ty).desc) ∧
    (∀ (device : d3d12_device_model) (heap : d3d12_descriptor_heap)
        (slot : d3d12_desc) (c : Option D3D12_CONSTANT_BUFFER_VIEW_DESC),
      (∀ r ∈ device.va_map, 0 < r.cookie) →
      slot_cookie_discipline slot →
      slot_cookie_discipline (d3d12_desc_create_cbv device heap slot c).desc) ∧
    (∀ (device : d3d12_device_model) (heap : d3d12_descriptor_heap)
        (slot : d3d12_desc) (res : d3d12_texture_resource)
        (d : Option D3D12_TEX_UAV_DESC),
      view_map_cookies_pos res.view_map →
      slot_cookie_discipline slot →
      slot_cookie_discipline
          (vkd3d_create_texture_uav device heap slot (some res) d).desc ∧
        ((vkd3d_create_texture_uav device heap slot (some res) d).native_update_calls = 1 →
          (vkd3d_create_texture_uav device heap slot (some res) d).desc.metadata.cookie ≠ 0)) ∧
    (∀ (device : d3d12_device_model) (heap : d3d12_descriptor_heap)
        (slot : d3d12_desc) (res : Option d3d12_buffer_resource)
        (d : D3D12_SHADER_RESOURCE_VIEW_DESC_model),
      d.ViewDimension = D3D12_SRV_DIMENSION_RAYTRACING_ACCELERATION_STRUCTURE →
      d.rtas_location ≠ 0 →
      device.rt_supported = true →
      (vkd3d_create_buffer_srv device heap slot res (some d)).desc.metadata.cookie = 0 ∧
        (vkd3d_create_buffer_srv device heap slot res
            (some d)).desc.metadata.flags &&&
          VKD3D_DESCRIPTOR_FLAG_RAW_VA_AUX_BUFFER ≠ 0 ∧
        slot_cookie_discipline
          (vkd3d_create_buffer_srv device heap slot res (some d)).desc) := by
  refine ⟨?_, ?_, ?_, ?_, ?_, ?_, ?_⟩
  · intro m n h
    unfold cookie_at
    omega
  · intro n
    unfold cookie_at
    omega
  · intro c
    exact ⟨rfl, by unfold d3d12_resource_create_cookie vkd3d_allocate_cookie; omega⟩
  · intro heap slot ty
    exact null_write_discipline heap slot ty
  · intro device heap slot c hva hslot
    cases c with
    | none => exact hslot
    | some cb =>
        by_cases hsz : cb.SizeInBytes % D3D12_CONSTANT_BUFFER_DATA_PLACEMENT_ALIGNMENT ≠ 0
        · have heq : d3d12_desc_create_cbv device heap slot (some cb) =
              { desc := slot, heap := heap, native_update_calls := 0 } := by
            unfold d3d12_desc_create_cbv
            simp only [if_pos hsz]
          rw [heq]
          exact hslot
        · by_cases hloc : cb.BufferLocation = 0
          · have heq : d3d12_desc_create_cbv device heap slot (some cb) =
                d3d12_descriptor_heap_write_null_descriptor_template heap slot
                  device.cbv_descriptor_type := by
              unfold d3d12_desc_create_cbv
              simp only [if_neg hsz, if_pos hloc]
            rw [heq]
            exact null_write_discipline heap slot device.cbv_descriptor_type
          · cases hder : vkd3d_va_map_deref device.va_map cb.BufferLocation with
            | none =>
                have heq : d3d12_desc_create_cbv device heap slot (some cb) =
                    { desc := slot, heap := heap, native_update_calls := 0 } := by
                  unfold d3d12_desc_create_cbv
                  simp only [if_neg hsz, if_neg hloc, hder]
                rw [heq]
                exact hslot
            | some r =>
                have hr := hva r (vkd3d_va_map_deref_mem device.va_map
                  cb.BufferLocation r hder)
                have hcook : (d3d12_desc_create_cbv device heap slot
                    (some cb)).desc.metadata.cookie = r.cookie := by
                  unfold d3d12_desc_create_cbv
                  simp only [if_neg hsz, if_neg hloc, hder]
                intro hzero
                rw [hcook] at hzero
                omega
  · intro device heap slot res d hvm hslot
    cases hinit : init_default_texture_view_desc res with
    | none =>
        have heq : vkd3d_create_texture_uav device heap slot (some res) d =
            { desc := slot, heap := heap, view_map := some res.view_map,
              native_update_calls := 0 } := by
          unfold vkd3d_create_texture_uav
          simp only [hinit]
        rw [heq]
        exact ⟨hslot, fun h => by simp at h⟩
    | some kf =>
        obtain ⟨key0, fmt⟩ := kf
        by_cases hcomp : fmt.compressed = true
        · have heq : vkd3d_create_texture_uav device heap slot (some res) d =
              { desc := slot, heap := heap, view_map := some res.view_map,
                native_update_calls := 0 } := by
            unfold vkd3d_create_texture_uav
            simp only [hinit, hcomp, if_true]
          rw [heq]
          exact ⟨hslot, fun h => by simp at h⟩
        · have hcomp2 : fmt.compressed = false := by
            cases hcf : fmt.compressed
            · rfl
            · exact absurd hcf hcomp
          obtain ⟨cv, hcveq⟩ : ∃ cv, vkd3d_view_map_create_view device.native_ok
              res.view_map (vkd3d_view_key.image
                (match d with
                  | none => key0
                  | some dd => texture_uav_apply_desc key0 dd)) = cv := ⟨_, rfl⟩
          cases hc1 : cv.1 with
          | none =>
              have heq : vkd3d_create_texture_uav device heap slot (some res) d =
                  { desc := slot, heap := heap, view_map := some cv.2,
                    native_update_calls := 0 } := by
                unfold vkd3d_create_texture_uav
                simp only [hinit, hcomp2, Bool.false_eq_true, if_false, hcveq, hc1]
              rw [heq]
              exact ⟨hslot, fun h => by simp at h⟩
          | some v =>
              have hv := view_map_create_view_pos device.native_ok res.view_map _
                hvm v (by rw [hcveq, hc1])
              have hcook : (vkd3d_create_texture_uav device heap slot (some res)
                  d).desc.metadata.cookie = v := by
                unfold vkd3d_create_texture_uav
                simp only [hinit, hcomp2, Bool.false_eq_true, if_false, hcveq, hc1]
              constructor
              · intro hzero
                rw [hcook] at hzero
                omega
              · intro _
                rw [hcook]
                omega
  · intro device heap slot res d hrtas hloc hrt
    have heq : vkd3d_create_buffer_srv device heap slot res (some d) =
        { desc :=
            { slot with metadata :=
                { cookie := 0, set_info_mask := 0,
                  flags := VKD3D_DESCRIPTOR_FLAG_RAW_VA_AUX_BUFFER |||
                    VKD3D_DESCRIPTOR_FLAG_NON_NULL,
                  current_null_type := slot.metadata.current_null_type } },
          heap := raw_va_aux_buffer_store heap slot.heap_offset d.rtas_location,
          view_map := none, stored_buffer_range := none,
          native_update_calls := 0 } := by
      unfold vkd3d_create_buffer_srv
      simp only [if_pos hrtas, if_neg hloc, hrt, eq_self_iff_true, if_true]
    rw [heq]
    have h8 : (VKD3D_DESCRIPTOR_FLAG_RAW_VA_AUX_BUFFER |||
        VKD3D_DESCRIPTOR_FLAG_NON_NULL) &&&
        VKD3D_DESCRIPTOR_FLAG_RAW_VA_AUX_BUFFER ≠ 0 := by decide
    exact ⟨rfl, h8, fun _ => Or.inr h8⟩

/-- Witness for the C10 theorem: a successful concrete CBV bind keeps the
cookie discipline (the slot cookie becomes the positive resource cookie). -/
theorem cookie_zero_unambiguous_witness :
    slot_cookie_discipline
      (d3d12_desc_create_cbv cbv_example_device cbv_example_heap
        cbv_example_null_slot
        (some { BufferLocation := 4096, SizeInBytes := 256 })).desc :=
  cookie_zero_unambiguous.2.2.2.2.1 cbv_example_device cbv_example_heap
    cbv_example_null_slot (some { BufferLocation := 4096, SizeInBytes := 256 })
    (by decide) (by decide)
